import Mathlib

/-!
Shallow embedding of the core of a TypeScript NES emulator
(cartridge, PPU, memory bus, 6502 CPU, console frame loop),
together with theorems settling the frozen claims C1..C10.

Conventions used throughout the embedding:
* JavaScript numbers that the source keeps unmasked are modelled as `Nat`
  (masking appears exactly where the source masks);
* a JS expression that can be negative (`x - y`, signed branch offsets) is
  computed in `Int` and brought back with the explicit JS coercions below;
* `Uint8Array`s and plain arrays are modelled as total functions `Nat → Nat`
  updated pointwise;
* code paths on which JavaScript would throw (`throw new Error`, property
  access on `undefined`) are modelled with `Except`.
-/

set_option maxHeartbeats 4000000
set_option maxRecDepth 3000

namespace NesEmu

/-- Bit pattern of the JavaScript 32-bit bitwise NOT `~x`, read as an unsigned
32-bit value: all 32 bits of `ToInt32 x` flipped.  The source only uses `~`
under an outer mask (`& 0x80`, `&= ~flag`), so only this bit pattern matters. -/
def jsNot32 (x : Nat) : Nat := 0xFFFFFFFF - x % 0x100000000

/-- JavaScript `i & 0xFFFF` on a possibly negative integer in `Int32` range:
the low 16 bits of the two's-complement representation, i.e. `i mod 2^16`. -/
def jsAnd16 (i : Int) : Nat := (i % 65536).toNat

/-- JavaScript `i & 0xFF` on a possibly negative integer in `Int32` range. -/
def jsAnd8 (i : Int) : Nat := (i % 256).toNat

/-- Pointwise update of an array modelled as a function. -/
def updateFn (f : Nat → Nat) (k v : Nat) : Nat → Nat :=
  fun i => if i = k then v else f i

/-- The status-byte part of `CPU.setFlag`: `SR |= flag` or `SR &= ~flag`. -/
def setFlagNat (sr flag : Nat) (b : Bool) : Nat :=
  if b then sr ||| flag else sr &&& jsNot32 flag

/-- The all-zero array. -/
def zeroFn : Nat → Nat := fun _ => 0

/-- Errors raised by the embedded code.  `jsTypeError` models a JavaScript
`TypeError` from element access on `undefined`; `jsUndefined` models an
out-of-bounds typed-array read whose `undefined` result poisons the run;
`invalidChrAddress` models the explicit `throw` in `readChr`/`writeChr`. -/
inductive MemError where
  | jsTypeError
  | jsUndefined
  | invalidChrAddress
deriving DecidableEq

/-- `cartridge.ts`: nametable mirroring modes. -/
inductive MirroringMode where
  | Horizontal
  | Vertical
  | FourScreen
  | SingleScreenLow
  | SingleScreenHigh
deriving DecidableEq

/-- `cartridge.ts` (the revision that carries `mirrorVramAddress`): the fields
of class `Cartridge` that its read/write paths consult.  Each 16 KiB PRG bank
and 8 KiB CHR bank is a byte array modelled as a function. -/
structure Cartridge where
  prgBanks : List (Nat → Nat)
  chrBanks : List (Nat → Nat)
  prgRam : Nat → Nat
  chrRam : Nat → Nat
  mapper : Nat
  mirroring : MirroringMode

namespace Cartridge

/-- `Cartridge.readPrg`.  For NROM the source indexes
`prgBanks[Math.floor((address - 0x8000) / 0x4000)]` and then reads
`bank[(address - 0x8000) & bankSize]`.  When the bank index is out of range
the JS property access on `undefined` throws (`jsTypeError`); when the byte
index exceeds the 16 KiB bank (2-bank carts above 0xBFFF) the typed-array
read yields `undefined` (`jsUndefined`). -/
def readPrg (c : Cartridge) (address : Nat) : Except MemError Nat :=
  match c.mapper with
  | 0 =>
    if 0x8000 ≤ address then
      let bankSize := if c.prgBanks.length = 1 then 0x3FFF else 0x7FFF
      match c.prgBanks.get? ((address - 0x8000) / 0x4000) with
      | some bank =>
        let idx := (address - 0x8000) &&& bankSize
        if idx < 0x4000 then .ok (bank idx) else .error .jsUndefined
      | none => .error .jsTypeError
    else .ok 0
  | _ => .ok 0

/-- `Cartridge.writePrg`: NROM accepts only PRG-RAM writes (0x6000-0x7FFF). -/
def writePrg (c : Cartridge) (address value : Nat) : Cartridge :=
  match c.mapper with
  | 0 =>
    if 0x6000 ≤ address ∧ address < 0x8000 then
      { c with prgRam := updateFn c.prgRam (address - 0x6000) value }
    else c
  | _ => c

/-- `Cartridge.readChr`: the source throws for addresses ≥ 0x2000; for NROM it
reads CHR ROM bank 0 when present, else CHR RAM. -/
def readChr (c : Cartridge) (address : Nat) : Except MemError Nat :=
  if 0x2000 ≤ address then .error .invalidChrAddress
  else
    match c.mapper with
    | 0 =>
      match c.chrBanks.head? with
      | some bank => .ok (bank address)
      | none => .ok (c.chrRam address)
    | _ => .ok 0

/-- `Cartridge.mirrorVramAddress`.  The source first reduces the address with
`(address - 0x2000) & 0x0FFF` (its callers always pass 0x2000-0x2FFF, so the
JS subtraction is non-negative) and then adjusts per mirroring mode.  Note the
`Horizontal` arm: its comment reads `// 0: A, 1: A, 2: B, 3: B`, but the code
subtracts 0x800 from the whole range 0x800-0xFFF, which is exactly what the
`Vertical` arm does. -/
def mirrorVramAddress (c : Cartridge) (address : Nat) : Nat :=
  let address := (address - 0x2000) &&& 0x0FFF
  let address :=
    match c.mirroring with
    | .Horizontal =>
      if 0x0800 ≤ address ∧ address < 0x1000 then address - 0x0800 else address
    | .Vertical =>
      if 0x0800 ≤ address then address - 0x0800 else address
    | .SingleScreenLow => address &&& 0x03FF
    | .SingleScreenHigh => (address &&& 0x03FF) + 0x0400
    | .FourScreen => address
  address + 0x2000

end Cartridge

/-- `ppu.ts` (full revision): every mutable field of class `PPU`. -/
structure PPUState where
  vram : Nat → Nat
  oam : Nat → Nat
  frameBuffer : Nat → Nat
  paletteRam : Nat → Nat
  cycle : Nat
  scanline : Nat
  frame : Nat
  nmiOccurred : Nat
  nmiOutput : Nat
  nmiPrevious : Nat
  ctrl : Nat
  mask : Nat
  status : Nat
  data : Nat
  v : Nat
  t : Nat
  x : Nat
  w : Nat
  oamAddr : Nat
  bgShiftRegLow : Nat
  bgShiftRegHigh : Nat
  bgAttrShiftLow : Nat
  bgAttrShiftHigh : Nat
  bgTileLow : Nat
  bgTileHigh : Nat
  spriteCount : Nat
  spriteZeroHitPossible : Nat
  spritePositions : Nat → Nat
  spritePatterns : Nat → Nat
  spriteAttributes : Nat → Nat
  spriteIndexes : Nat → Nat
  bgAttributeLatch : Nat
  bgNameTable : Nat
  bgPatternTable : Nat
  nmiEnabled : Nat
  masterSlave : Nat
  spriteSize : Nat
  bgPatternAddr : Nat
  grayscale : Nat
  showLeftBackground : Nat
  showLeftSprites : Nat
  showBackground : Nat
  showSprites : Nat
  spritePatternTable : Nat
  secondaryOam : Nat → Nat
  oamMemory : Nat → Nat

namespace PPU

/-- `PPU.PALETTE`: the static colour table of the source (32 entries). -/
def PALETTE : List Nat :=
  [0x7C7C7C, 0x0000FC, 0x0000BC, 0x4428BC, 0x940084, 0xA80020, 0xA81000, 0x881400,
   0x503000, 0x007800, 0x006800, 0x005800, 0x004058, 0x000000, 0x000000, 0x000000,
   0xBCBCBC, 0x0078F8, 0x0058F8, 0x6844FC, 0xD800CC, 0xE40058, 0xF83800, 0xE45C10,
   0xAC7C00, 0x00B800, 0x00A800, 0x00A844, 0x008888, 0x000000, 0x000000, 0x000000]

end PPU

/-- `Memory.mapPpuAddress` (the live `memory.ts` revision, the one attached to
the console): recursion worker.  The source's single self-call (for
0x3000-0x3EFF) lands in the nametable branch, so fuel 2 always suffices; the
fuel-0 fallback is unreachable. -/
def mapPpuAddressAux (cart : Cartridge) : Nat → Nat → Nat
  | 0, address => address
  | fuel + 1, address =>
    let address := address &&& 0x3FFF
    if address < 0x2000 then address
    else if address < 0x3000 then Cartridge.mirrorVramAddress cart address
    else if address < 0x3F00 then mapPpuAddressAux cart fuel (address - 0x1000)
    else 0x3F00 ||| (address &&& 0x1F)

/-- `Memory.mapPpuAddress` of the live `memory.ts`: pattern tables map
directly, nametables go through the cartridge's `mirrorVramAddress`,
0x3000-0x3EFF mirrors down by 0x1000, and palette indices are
`0x3F00 | (address & 0x1F)`. -/
def Memory.mapPpuAddress (cart : Cartridge) (address : Nat) : Nat :=
  mapPpuAddressAux cart 2 address

namespace PPU

/-- `PPU.readVRAM`.  The pattern-table branch calls `readChr` with the mapped
address, which is `< 0x2000` there, so `readChr`'s throw is unreachable; the
error arm below is dead and merely keeps the extraction total. -/
def readVRAM (p : PPUState) (cart : Cartridge) (address : Nat) : Nat :=
  let mappedAddr := Memory.mapPpuAddress cart address
  if mappedAddr < 0x2000 then
    match Cartridge.readChr cart mappedAddr with
    | .ok value => value
    | .error _ => 0
  else if mappedAddr < 0x3F00 then p.vram (mappedAddr &&& 0x0FFF)
  else p.paletteRam (mappedAddr &&& 0x1F)

/-- `PPU.writeVRAM`: palette stores go to `paletteRam[mapped & 0x1F]`,
everything else (including mapped pattern-table addresses) goes to
`vram[mapped & 0x0FFF]`. -/
def writeVRAM (p : PPUState) (cart : Cartridge) (address value : Nat) : PPUState :=
  let mappedAddr := Memory.mapPpuAddress cart address
  if 0x3F00 ≤ mappedAddr ∧ mappedAddr < 0x4000 then
    { p with paletteRam := updateFn p.paletteRam (mappedAddr &&& 0x1F) value }
  else
    { p with vram := updateFn p.vram (mappedAddr &&& 0x0FFF) value }

/-- `PPU.getVRAMIncrement`: 32 when PPUCTRL bit 2 is set, else 1. -/
def getVRAMIncrement (p : PPUState) : Nat :=
  if p.ctrl &&& 0x04 ≠ 0 then 32 else 1

/-- `PPU.getBackgroundPixel`. -/
def getBackgroundPixel (p : PPUState) : Nat :=
  if p.mask &&& 0x08 = 0 then 0
  else
    let xFine := 7 - p.x
    let pixel := (((p.bgShiftRegHigh >>> xFine) &&& 1) <<< 1) ||| ((p.bgShiftRegLow >>> xFine) &&& 1)
    -- the source calls this local `attribute`, a reserved word here
    let attrBits := (((p.bgAttrShiftHigh >>> xFine) &&& 1) <<< 1) ||| ((p.bgAttrShiftLow >>> xFine) &&& 1)
    (attrBits <<< 2) ||| pixel

/-- `PPU.getPaletteIndex`. -/
def getPaletteIndex (pixel : Nat) : Nat :=
  if pixel = 0 then 0 else pixel

/-- `PPU.loadBackgroundShifters`.  (`attributeBits` is shifted left by 6 before
its bits 0 and 1 are tested, so both tests are always false in the source;
the embedding reproduces that.) -/
def loadBackgroundShifters (p : PPUState) : PPUState :=
  let p := { p with bgShiftRegLow := (p.bgShiftRegLow &&& 0xFF00) ||| p.bgTileLow }
  let p := { p with bgShiftRegHigh := (p.bgShiftRegHigh &&& 0xFF00) ||| p.bgTileHigh }
  let attributeBits := ((p.bgAttributeLatch >>> ((p.v >>> 4) &&& 4)) &&& 3) <<< 6
  let p := { p with bgAttrShiftLow := (p.bgAttrShiftLow &&& 0xFF00) ||| (if attributeBits &&& 0x01 ≠ 0 then 0xFF else 0x00) }
  { p with bgAttrShiftHigh := (p.bgAttrShiftHigh &&& 0xFF00) ||| (if attributeBits &&& 0x02 ≠ 0 then 0xFF else 0x00) }

/-- `PPU.updateShiftRegisters`.  The JS `<<=` coerces through `ToInt32`; the
shifted values are consumed only through `(x >> k) & 1` with `k ≤ 7`, so
keeping the low 32 bits preserves the observable behaviour. -/
def updateShiftRegisters (p : PPUState) : PPUState :=
  if p.mask &&& 0x08 = 0 then p
  else
    { p with bgShiftRegLow := (p.bgShiftRegLow <<< 1) &&& 0xFFFFFFFF,
             bgShiftRegHigh := (p.bgShiftRegHigh <<< 1) &&& 0xFFFFFFFF,
             bgAttrShiftLow := (p.bgAttrShiftLow <<< 1) &&& 0xFFFFFFFF,
             bgAttrShiftHigh := (p.bgAttrShiftHigh <<< 1) &&& 0xFFFFFFFF }

/-- `PPU.fetchBackgroundTile`: the 8-dot fetch cycle keyed on `cycle % 8`. -/
def fetchBackgroundTile (p : PPUState) (cart : Cartridge) : PPUState :=
  match p.cycle % 8 with
  | 1 =>
    let addr := 0x2000 ||| (p.v &&& 0x0FFF)
    { p with bgNameTable := readVRAM p cart addr }
  | 3 =>
    let addr := 0x23C0 ||| (p.v &&& 0x0C00) ||| ((p.v >>> 4) &&& 0x38) ||| ((p.v >>> 2) &&& 0x07)
    { p with bgAttributeLatch := readVRAM p cart addr }
  | 5 =>
    let fineY := (p.v >>> 12) &&& 7
    let patternTable := if p.ctrl &&& 0x10 ≠ 0 then 0x1000 else 0x0000
    let addr := patternTable + (p.bgNameTable <<< 4) + fineY
    { p with bgTileLow := readVRAM p cart addr }
  | 7 =>
    let fineY := (p.v >>> 12) &&& 7
    let patternTable := if p.ctrl &&& 0x10 ≠ 0 then 0x1000 else 0x0000
    let addr := patternTable + (p.bgNameTable <<< 4) + fineY + 8
    loadBackgroundShifters { p with bgTileHigh := readVRAM p cart addr }
  | _ => p

/-- Inner loop of `PPU.renderPixel`: find the first sprite (in secondary
order) with a non-transparent pixel covering column `x`; returns
`(pixel, palette, priority)`. -/
def spritePixelSearch (p : PPUState) (x : Nat) : Nat → Nat → Option (Nat × Nat × Nat)
  | 0, _ => none
  | fuel + 1, i =>
    if i < p.spriteCount then
      let offset : Int := (x : Int) - p.spritePositions i
      if offset < 0 ∨ 7 < offset then spritePixelSearch p x fuel (i + 1)
      else
        let offset := offset.toNat
        let pattern := (p.spritePatterns (i * 2 + 1) <<< 8) ||| p.spritePatterns (i * 2)
        let attributes := p.spriteAttributes i
        let flipHorizontal := attributes &&& 0x40 ≠ 0
        let pixelBit := if flipHorizontal then offset else 7 - offset
        let pixel := (pattern >>> (pixelBit * 2)) &&& 0x03
        if pixel = 0 then spritePixelSearch p x fuel (i + 1)
        else some (pixel, (((attributes &&& 0x03) <<< 2) ||| pixel,
                   if attributes &&& 0x20 ≠ 0 then 1 else 0))
    else none

/-- `PPU.renderPixel`.  (Debug logging elided; `PALETTE[v]` for `v ≥ 32` is
`undefined` in JS, which the subsequent shifts coerce to 0: `getD _ 0`.) -/
def renderPixel (p : PPUState) : PPUState :=
  if p.mask &&& 0x18 = 0 then p
  else
    -- x = cycle - 1, y = scanline; the guard `x < 0 || x ≥ 256 || y ≥ 240`
    if p.cycle < 1 ∨ 256 < p.cycle ∨ 240 ≤ p.scanline then p
    else
      let x := p.cycle - 1
      let y := p.scanline
      let showLeftBackground := p.mask &&& 0x02 ≠ 0
      let showLeftSprites := p.mask &&& 0x04 ≠ 0
      if x < 8 ∧ (¬ showLeftBackground ∨ (¬ showLeftSprites ∧ 0 < p.spriteCount)) then p
      else
        let bgPixel := if p.mask &&& 0x08 ≠ 0 then getBackgroundPixel p else 0
        let bgPalette := if p.mask &&& 0x08 ≠ 0 ∧ bgPixel ≠ 0 then getPaletteIndex bgPixel else 0
        let sprite := if p.mask &&& 0x10 ≠ 0 then spritePixelSearch p x p.spriteCount 0 else none
        let spritePixel := match sprite with | some s => s.1 | none => 0
        let spritePalette := match sprite with | some s => s.2.1 | none => 0
        let spritePriority := match sprite with | some s => s.2.2 | none => 0
        let paletteIndex :=
          if bgPixel = 0 ∧ spritePixel = 0 then 0
          else if bgPixel = 0 then 0x10 ||| spritePalette
          else if spritePixel = 0 then bgPalette
          else if spritePriority = 0 then 0x10 ||| spritePalette
          else bgPalette
        let paletteIndex := if p.mask &&& 0x01 ≠ 0 then paletteIndex &&& 0x30 else paletteIndex
        let paletteValue := p.paletteRam (paletteIndex &&& 0x1F)
        let color := PALETTE.getD paletteValue 0
        let index := (y * 256 + x) * 4
        let fb := updateFn p.frameBuffer index ((color >>> 16) &&& 0xFF)
        let fb := updateFn fb (index + 1) ((color >>> 8) &&& 0xFF)
        let fb := updateFn fb (index + 2) (color &&& 0xFF)
        let fb := updateFn fb (index + 3) 255
        { p with frameBuffer := fb }

/-- Loop of `PPU.evaluateSprites`: `for (let i = 0; i < 64 && n < 8; i++)`,
run with `fuel = 64 - i`.  Returns the updated state and the final `n`. -/
def evaluateSpritesLoop (cart : Cartridge) (spriteHeight : Nat) :
    Nat → Nat → Nat → PPUState → PPUState × Nat
  | 0, _, n, p => (p, n)
  | fuel + 1, i, n, p =>
    if n < 8 then
      let y := p.oamMemory (i * 4)
      let tile := p.oamMemory (i * 4 + 1)
      let attributes := p.oamMemory (i * 4 + 2)
      let x := p.oamMemory (i * 4 + 3)
      let row : Int := (p.scanline : Int) - y
      if row < 0 ∨ (spriteHeight : Int) ≤ row then
        evaluateSpritesLoop cart spriteHeight fuel (i + 1) n p
      else
        -- `if (n < 8)` in the body is redundant under the loop guard but kept
        let row := row.toNat
        let p := if i = 0 then { p with spriteZeroHitPossible := 1 } else p
        let p := { p with spriteIndexes := updateFn p.spriteIndexes n i }
        let p := { p with spritePositions := updateFn p.spritePositions n x }
        let p := { p with spriteAttributes := updateFn p.spriteAttributes n attributes }
        let patternAddr :=
          if p.spriteSize = 0 then
            let table := p.spritePatternTable
            let flipVertical := attributes &&& 0x80 ≠ 0
            let patternRow := if flipVertical then 7 - row else row
            (table <<< 12) ||| (tile <<< 4) ||| patternRow
          else
            let table := tile &&& 0x01
            let flipVertical := attributes &&& 0x80 ≠ 0
            let patternRow := if flipVertical then 15 - row else row
            (table <<< 12) ||| ((tile &&& 0xFE) <<< 4) ||| ((patternRow &&& 0x08) <<< 1) ||| (patternRow &&& 0x07)
        let p := { p with spritePatterns := updateFn p.spritePatterns (n * 2) (readVRAM p cart patternAddr) }
        let p := { p with spritePatterns := updateFn p.spritePatterns (n * 2 + 1) (readVRAM p cart (patternAddr + 8)) }
        evaluateSpritesLoop cart spriteHeight fuel (i + 1) (n + 1) p
    else (p, n)

/-- `PPU.evaluateSprites`.  Because the loop above exits as soon as `n`
reaches 8, the trailing `if (n > 8)` that would set the sprite-overflow
status bit can never fire; the embedding preserves that shape. -/
def evaluateSprites (p : PPUState) (cart : Cartridge) : PPUState :=
  if p.mask &&& 0x10 = 0 then p
  else
    let p := { p with secondaryOam := fun _ => 0xFF, spriteCount := 0 }
    let spriteHeight := if p.spriteSize ≠ 0 then 16 else 8
    let p := { p with spriteZeroHitPossible := 0 }
    let (p, n) := evaluateSpritesLoop cart spriteHeight 64 0 0 p
    let (p, n) :=
      if 8 < n then ({ p with status := p.status ||| 0x20 }, 8) else (p, n)
    { p with spriteCount := n }

/-- `PPU.updateControlRegister`. -/
def updateControlRegister (p : PPUState) (value : Nat) : PPUState :=
  { p with nmiEnabled := if value &&& 0x80 ≠ 0 then 1 else 0,
           masterSlave := if value &&& 0x40 ≠ 0 then 1 else 0,
           spriteSize := if value &&& 0x20 ≠ 0 then 1 else 0,
           bgPatternAddr := if value &&& 0x10 ≠ 0 then 1 else 0,
           spritePatternTable := if value &&& 0x08 ≠ 0 then 1 else 0 }

/-- `PPU.updateMaskRegister`. -/
def updateMaskRegister (p : PPUState) (value : Nat) : PPUState :=
  { p with grayscale := if value &&& 0x01 ≠ 0 then 1 else 0,
           showLeftBackground := if value &&& 0x02 ≠ 0 then 1 else 0,
           showLeftSprites := if value &&& 0x04 ≠ 0 then 1 else 0,
           showBackground := if value &&& 0x08 ≠ 0 then 1 else 0,
           showSprites := if value &&& 0x10 ≠ 0 then 1 else 0 }

/-- First phase of `PPU.step`: at dot 1 of the pre-render scanline 261,
clear VBlank, sprite-zero hit and sprite overflow. -/
def stepPreRender (p : PPUState) : PPUState :=
  if p.scanline = 261 ∧ p.cycle = 1 then
    { p with status := p.status &&& jsNot32 0x80 &&& jsNot32 0x40 &&& jsNot32 0x20 }
  else p

/-- Second phase of `PPU.step`: on visible scanlines, render/fetch/shift on
dots 1-256 and run sprite evaluation on dot 257. -/
def stepVisibleLine (p : PPUState) (cart : Cartridge) : PPUState :=
  if p.scanline < 240 then
    let p : PPUState :=
      if 1 ≤ p.cycle ∧ p.cycle ≤ 256 then
        updateShiftRegisters (fetchBackgroundTile (renderPixel p) cart)
      else p
    if p.cycle = 257 then evaluateSprites p cart else p
  else p

/-- Third phase of `PPU.step`: at dot 1 of scanline 241, set VBlank and, when
NMI is enabled, latch the NMI edge. -/
def stepVBlankStart (p : PPUState) : PPUState :=
  if p.scanline = 241 ∧ p.cycle = 1 then
    let p : PPUState := { p with status := p.status ||| 0x80 }
    if p.nmiEnabled ≠ 0 then { p with nmiOccurred := 1 } else p
  else p

/-- Fourth phase of `PPU.step`: advance the dot counter, wrapping cycle at
340 and scanline at 261. -/
def stepAdvanceDot (p : PPUState) : PPUState :=
  let p : PPUState := { p with cycle := p.cycle + 1 }
  if 340 < p.cycle then
    let p := { p with cycle := 0, scanline := p.scanline + 1 }
    if 261 < p.scanline then { p with scanline := 0, frame := p.frame + 1 } else p
  else p

/-- `PPU.step`: one PPU dot, as the sequence of the four phases of the source
method's body. -/
def step (p : PPUState) (cart : Cartridge) : PPUState :=
  stepAdvanceDot (stepVBlankStart (stepVisibleLine (stepPreRender p) cart))

/-- `PPU.checkNMI`: reports and clears the latched NMI edge. -/
def checkNMI (p : PPUState) : Nat × PPUState :=
  if p.nmiOccurred = 1 then (1, { p with nmiOccurred := 0 }) else (0, p)

/-- `PPU.readOAM`. -/
def readOAM (p : PPUState) (addr : Nat) : Nat := p.oam addr

/-- `PPU.writeOAM`. -/
def writeOAM (p : PPUState) (addr value : Nat) : PPUState :=
  { p with oam := updateFn p.oam addr value }

/-- `PPU.readRegister` (the CPU-perspective register file of `ppu.ts`):
PPUSTATUS merges the status bits with the stale data-bus bits and clears
VBlank and `w`; PPUDATA returns the buffer, refills it from `v` for every
address (palette included), and bumps `v`. -/
def readRegister (p : PPUState) (cart : Cartridge) (address : Nat) : Nat × PPUState :=
  if address = 0x2002 then
    let result := (p.status &&& 0xE0) ||| (p.data &&& 0x1F)
    (result, { p with status := p.status &&& 0x7F, w := 0 })
  else if address = 0x2004 then
    (readOAM p p.oamAddr, p)
  else if address = 0x2007 then
    let result := p.data
    let p := { p with data := readVRAM p cart p.v }
    (result, { p with v := p.v + getVRAMIncrement p })
  else (0, p)

/-- `PPU.readStatus` (the public method used by the live memory bus): returns
the raw status byte, clears VBlank, resets `w`. -/
def readStatus (p : PPUState) : Nat × PPUState :=
  (p.status, { p with status := p.status &&& jsNot32 0x80, w := 0 })

/-- `PPU.readOAMData`. -/
def readOAMData (p : PPUState) : Nat := p.oam p.oamAddr

/-- `PPU.readData` (the public method used by the live memory bus): reads the
byte at `v` directly — no read buffer — and bumps `v`. -/
def readData (p : PPUState) (cart : Cartridge) : Nat × PPUState :=
  let value := readVRAM p cart p.v
  (value, { p with v := p.v + getVRAMIncrement p })

/-- `PPU.writeControl`.  The source saves `prevNMI = this.nmiOutput` and then
never uses it; no NMI edge is produced here — `nmiOccurred` is left alone and
`nmiOutput` is merely recomputed as `nmiEnabled & nmiOccurred`. -/
def writeControl (p : PPUState) (value : Nat) : PPUState :=
  let _prevNMI := p.nmiOutput
  let p := { p with ctrl := value }
  let p := { p with nmiEnabled := (value >>> 7) &&& 1 }
  let p := { p with nmiOutput := p.nmiEnabled &&& p.nmiOccurred }
  let p := { p with bgPatternTable := (value >>> 4) &&& 1 }
  { p with t := (p.t &&& 0xF3FF) ||| ((value &&& 0x03) <<< 10) }

/-- `PPU.writeMask`. -/
def writeMask (p : PPUState) (value : Nat) : PPUState :=
  updateMaskRegister { p with mask := value } value

/-- `PPU.writeOAMAddress`. -/
def writeOAMAddress (p : PPUState) (value : Nat) : PPUState :=
  { p with oamAddr := value }

/-- `PPU.writeOAMData`. -/
def writeOAMData (p : PPUState) (value : Nat) : PPUState :=
  let p := { p with oam := updateFn p.oam p.oamAddr value }
  { p with oamAddr := (p.oamAddr + 1) &&& 0xFF }

/-- `PPU.writeScroll`. -/
def writeScroll (p : PPUState) (value : Nat) : PPUState :=
  if p.w = 0 then
    { p with x := value &&& 0x07,
             t := (p.t &&& 0xFFE0) ||| (value >>> 3),
             w := 1 }
  else
    let p := { p with t := (p.t &&& 0x8FFF) ||| ((value &&& 0x07) <<< 12) }
    { p with t := (p.t &&& 0xFC1F) ||| ((value &&& 0xF8) <<< 2),
             w := 0 }

/-- `PPU.writeAddress`. -/
def writeAddress (p : PPUState) (value : Nat) : PPUState :=
  if p.w = 0 then
    { p with t := (p.t &&& 0x80FF) ||| ((value &&& 0x3F) <<< 8),
             w := 1 }
  else
    let p := { p with t := (p.t &&& 0xFF00) ||| value }
    { p with v := p.t, w := 0 }

/-- `PPU.writeData`: store at `v`, then bump `v` per PPUCTRL bit 2. -/
def writeData (p : PPUState) (cart : Cartridge) (value : Nat) : PPUState :=
  let p := writeVRAM p cart p.v value
  { p with v := p.v + getVRAMIncrement p }

/-- Palette RAM contents produced by the initialisation loops of
`PPU.reset` (written out pointwise). -/
def resetPaletteRam : Nat → Nat := fun i =>
  if i < 16 then [0x0F, 0x01, 0x02, 0x03].getD (i % 4) 0
  else if i < 32 then [0x0F, 0x11, 0x12, 0x13].getD (i % 4) 0
  else 0

/-- `PPU.reset`: the fields the method assigns (note that `data`,
`bgAttributeLatch`, `bgNameTable`, `bgPatternTable`, `secondaryOam` and
`oamMemory` are left untouched by the source's reset). -/
def reset (p : PPUState) : PPUState :=
  let p :=
    { p with cycle := 0, scanline := 0, frame := 0,
             ctrl := 0, mask := 0, status := 0, oamAddr := 0,
             w := 0, t := 0, v := 0, x := 0,
             nmiOccurred := 0, nmiOutput := 0, nmiPrevious := 0,
             spriteCount := 0, spriteZeroHitPossible := 0,
             spritePositions := zeroFn, spritePatterns := zeroFn,
             spriteAttributes := zeroFn, spriteIndexes := zeroFn,
             bgShiftRegLow := 0, bgShiftRegHigh := 0,
             bgAttrShiftLow := 0, bgAttrShiftHigh := 0,
             bgTileLow := 0, bgTileHigh := 0,
             vram := zeroFn, oam := zeroFn,
             paletteRam := resetPaletteRam,
             frameBuffer := zeroFn }
  let p := { p with ctrl := 0x80 }
  let p := updateControlRegister p 0x80
  let p := { p with mask := 0x1E }
  let p := updateMaskRegister p 0x1E
  { p with v := 0x2000, t := 0x2000 }

/-- The constructor's zero-initialised PPU state (before `reset()` runs). -/
def initState : PPUState :=
  { vram := zeroFn, oam := zeroFn, frameBuffer := zeroFn, paletteRam := zeroFn,
    cycle := 0, scanline := 0, frame := 0,
    nmiOccurred := 0, nmiOutput := 0, nmiPrevious := 0,
    ctrl := 0, mask := 0, status := 0, data := 0,
    v := 0, t := 0, x := 0, w := 0, oamAddr := 0,
    bgShiftRegLow := 0, bgShiftRegHigh := 0, bgAttrShiftLow := 0, bgAttrShiftHigh := 0,
    bgTileLow := 0, bgTileHigh := 0,
    spriteCount := 0, spriteZeroHitPossible := 0,
    spritePositions := zeroFn, spritePatterns := zeroFn,
    spriteAttributes := zeroFn, spriteIndexes := zeroFn,
    bgAttributeLatch := 0, bgNameTable := 0, bgPatternTable := 0,
    nmiEnabled := 0, masterSlave := 0, spriteSize := 0, bgPatternAddr := 0,
    grayscale := 0, showLeftBackground := 0, showLeftSprites := 0,
    showBackground := 0, showSprites := 0, spritePatternTable := 0,
    secondaryOam := zeroFn, oamMemory := zeroFn }

/-- `renderFrame`: both branches of the source return the frame buffer. -/
def renderFrame (p : PPUState) : Nat → Nat := p.frameBuffer

end PPU

/-- `cpu.ts`: the register file and interrupt latches of class `CPU`. -/
structure CPUState where
  A : Nat
  X : Nat
  Y : Nat
  PC : Nat
  SP : Nat
  SR : Nat
  cycles : Nat
  pendingNMI : Bool
  pendingIRQ : Bool

-- `CpuFlags` of `cpu.ts`.
namespace CpuFlags

def Carry : Nat := 1
def Zero : Nat := 2
def InterruptDisable : Nat := 4
def Decimal : Nat := 8
def Break : Nat := 16
def Unused : Nat := 32
def Overflow : Nat := 64
def Negative : Nat := 128

end CpuFlags

/-- The whole machine: CPU registers, the live `Memory`'s RAM and APU/IO
register sink, the PPU, and the cartridge. -/
structure NES where
  cpu : CPUState
  ram : Nat → Nat
  apuRegisters : Nat → Nat
  ppu : PPUState
  cart : Cartridge

namespace Memory

/-- `Memory.read` of the live `memory.ts` (the revision wired to the console
via `setPpu`): RAM mirrored every 2 KiB, the PPU register file dispatched to
the typed PPU methods (with read side effects), the APU/IO sink, and the
cartridge.  The `if (!this.ppu) return 0` guard of the source cannot fire in
the assembled console, where the PPU is always attached. -/
def read (s : NES) (address : Nat) : Except MemError (Nat × NES) :=
  let address := address &&& 0xFFFF
  if address < 0x2000 then
    .ok (s.ram (address &&& 0x07FF), s)
  else if address ≤ 0x3FFF then
    let register := 0x2000 + (address &&& 0x7)
    if register = 0x2000 then .ok (s.ppu.ctrl, s)
    else if register = 0x2001 then .ok (s.ppu.mask, s)
    else if register = 0x2002 then
      let (value, p) := PPU.readStatus s.ppu
      .ok (value, { s with ppu := p })
    else if register = 0x2003 then .ok (s.ppu.oamAddr, s)
    else if register = 0x2004 then .ok (PPU.readOAMData s.ppu, s)
    else if register = 0x2007 then
      let (value, p) := PPU.readData s.ppu s.cart
      .ok (value, { s with ppu := p })
    else .ok (0, s)
  else if address < 0x4018 then
    .ok (s.apuRegisters (address - 0x4000), s)
  else if address < 0x4020 then
    .ok (0, s)
  else
    match Cartridge.readPrg s.cart address with
    | .ok value => .ok (value, s)
    | .error e => .error e

/-- `Memory.write` of the live `memory.ts`. -/
def write (s : NES) (address value : Nat) : NES :=
  let address := address &&& 0xFFFF
  let value := value &&& 0xFF
  if address < 0x2000 then
    { s with ram := updateFn s.ram (address &&& 0x07FF) value }
  else if address ≤ 0x3FFF then
    let register := 0x2000 + (address &&& 0x7)
    if register = 0x2000 then { s with ppu := PPU.writeControl s.ppu value }
    else if register = 0x2001 then { s with ppu := PPU.writeMask s.ppu value }
    else if register = 0x2003 then { s with ppu := PPU.writeOAMAddress s.ppu value }
    else if register = 0x2004 then { s with ppu := PPU.writeOAMData s.ppu value }
    else if register = 0x2005 then { s with ppu := PPU.writeScroll s.ppu value }
    else if register = 0x2006 then { s with ppu := PPU.writeAddress s.ppu value }
    else if register = 0x2007 then { s with ppu := PPU.writeData s.ppu s.cart value }
    else s
  else if address < 0x4018 then
    { s with apuRegisters := updateFn s.apuRegisters (address - 0x4000) value }
  else if address < 0x4020 then
    s
  else
    { s with cart := Cartridge.writePrg s.cart address value }

end Memory

namespace CPU

/-- `CPU.setFlag`: `SR |= flag` / `SR &= ~flag`. -/
def setFlag (c : CPUState) (flag : Nat) (value : Bool) : CPUState :=
  if value then { c with SR := c.SR ||| flag }
  else { c with SR := c.SR &&& jsNot32 flag }

/-- `CPU.getFlag`: `(SR & flag) !== 0`. -/
def getFlag (c : CPUState) (flag : Nat) : Bool :=
  (c.SR &&& flag) != 0

/-- `CPU.updateZeroNegativeFlags`. -/
def updateZeroNegativeFlags (c : CPUState) (value : Nat) : CPUState :=
  let c := setFlag c CpuFlags.Zero (value == 0)
  setFlag c CpuFlags.Negative ((value &&& 0x80) != 0)

/-- `CPU.pushByte`: write to `0x0100 | SP`, then `SP = (SP - 1) & 0xFF`
(the JS subtraction can wrap below zero, hence the `Int` detour). -/
def pushByte (s : NES) (value : Nat) : NES :=
  let s := Memory.write s (0x0100 ||| s.cpu.SP) (value &&& 0xFF)
  { s with cpu := { s.cpu with SP := jsAnd8 ((s.cpu.SP : Int) - 1) } }

/-- `CPU.pushWord`: high byte first.  `value` is `Int` because `JSR` pushes
`PC - 1`, which can be negative in JS when `PC` is 0; `value >> 8` on an
`Int32` is floor division by 256. -/
def pushWord (s : NES) (value : Int) : NES :=
  let s := pushByte s (jsAnd8 (Int.fdiv value 256))
  pushByte s (jsAnd8 value)

/-- `CPU.pullByte`. -/
def pullByte (s : NES) : Except MemError (Nat × NES) :=
  let s := { s with cpu := { s.cpu with SP := (s.cpu.SP + 1) &&& 0xFF } }
  Memory.read s (0x0100 ||| s.cpu.SP)

/-- `CPU.pullWord`: low byte first. -/
def pullWord (s : NES) : Except MemError (Nat × NES) :=
  match pullByte s with
  | .error e => .error e
  | .ok (lo, s) =>
    match pullByte s with
    | .error e => .error e
    | .ok (hi, s) => .ok ((hi <<< 8) ||| lo, s)

/-- `CPU.fetchByte`: read at `PC`, then `PC = (PC + 1) & 0xFFFF`. -/
def fetchByte (s : NES) : Except MemError (Nat × NES) :=
  match Memory.read s s.cpu.PC with
  | .error e => .error e
  | .ok (value, s) =>
    .ok (value, { s with cpu := { s.cpu with PC := (s.cpu.PC + 1) &&& 0xFFFF } })

/-- `CPU.fetchWord`: little-endian. -/
def fetchWord (s : NES) : Except MemError (Nat × NES) :=
  match fetchByte s with
  | .error e => .error e
  | .ok (lo, s) =>
    match fetchByte s with
    | .error e => .error e
    | .ok (hi, s) => .ok ((hi <<< 8) ||| lo, s)

/-- `CPU.operandImmediate`. -/
def operandImmediate (s : NES) : Except MemError (Nat × NES) := fetchByte s

/-- `CPU.operandZeroPage`. -/
def operandZeroPage (s : NES) : Except MemError (Nat × NES) := fetchByte s

/-- `CPU.operandZeroPageX`: wraps within the zero page. -/
def operandZeroPageX (s : NES) : Except MemError (Nat × NES) :=
  match fetchByte s with
  | .error e => .error e
  | .ok (b, s) => .ok ((b + s.cpu.X) &&& 0xFF, s)

/-- `CPU.operandZeroPageY`. -/
def operandZeroPageY (s : NES) : Except MemError (Nat × NES) :=
  match fetchByte s with
  | .error e => .error e
  | .ok (b, s) => .ok ((b + s.cpu.Y) &&& 0xFF, s)

/-- `CPU.operandAbsolute`. -/
def operandAbsolute (s : NES) : Except MemError (Nat × NES) := fetchWord s

/-- `CPU.operandAbsoluteX`. -/
def operandAbsoluteX (s : NES) : Except MemError (Nat × NES) :=
  match fetchWord s with
  | .error e => .error e
  | .ok (baseAddr, s) => .ok ((baseAddr + s.cpu.X) &&& 0xFFFF, s)

/-- `CPU.operandAbsoluteY`. -/
def operandAbsoluteY (s : NES) : Except MemError (Nat × NES) :=
  match fetchWord s with
  | .error e => .error e
  | .ok (baseAddr, s) => .ok ((baseAddr + s.cpu.Y) &&& 0xFFFF, s)

/-- `CPU.operandIndirectX`. -/
def operandIndirectX (s : NES) : Except MemError (Nat × NES) :=
  match fetchByte s with
  | .error e => .error e
  | .ok (b, s) =>
    let zeroPageAddr := (b + s.cpu.X) &&& 0xFF
    match Memory.read s zeroPageAddr with
    | .error e => .error e
    | .ok (lo, s) =>
      match Memory.read s ((zeroPageAddr + 1) &&& 0xFF) with
      | .error e => .error e
      | .ok (hi, s) => .ok ((hi <<< 8) ||| lo, s)

/-- `CPU.operandIndirectY`. -/
def operandIndirectY (s : NES) : Except MemError (Nat × NES) :=
  match fetchByte s with
  | .error e => .error e
  | .ok (zeroPageAddr, s) =>
    match Memory.read s zeroPageAddr with
    | .error e => .error e
    | .ok (lo, s) =>
      match Memory.read s ((zeroPageAddr + 1) &&& 0xFF) with
      | .error e => .error e
      | .ok (hi, s) => .ok ((((hi <<< 8) ||| lo) + s.cpu.Y) &&& 0xFFFF, s)

/-- `CPU.addrZeroPage` and friends fetch the target address itself; in the
source they duplicate the `operand*` computations, and the embedding reuses
the identical bodies. -/
def addrZeroPage (s : NES) : Except MemError (Nat × NES) := fetchByte s

/-- `CPU.addrZeroPageX`. -/
def addrZeroPageX (s : NES) : Except MemError (Nat × NES) := operandZeroPageX s

/-- `CPU.addrZeroPageY`. -/
def addrZeroPageY (s : NES) : Except MemError (Nat × NES) := operandZeroPageY s

/-- `CPU.addrAbsolute`. -/
def addrAbsolute (s : NES) : Except MemError (Nat × NES) := fetchWord s

/-- `CPU.addrAbsoluteX`. -/
def addrAbsoluteX (s : NES) : Except MemError (Nat × NES) := operandAbsoluteX s

/-- `CPU.addrAbsoluteY`. -/
def addrAbsoluteY (s : NES) : Except MemError (Nat × NES) := operandAbsoluteY s

/-- `CPU.addrIndirectX`. -/
def addrIndirectX (s : NES) : Except MemError (Nat × NES) := operandIndirectX s

/-- `CPU.addrIndirectY`. -/
def addrIndirectY (s : NES) : Except MemError (Nat × NES) := operandIndirectY s

/-- `CPU.add` (the ADC core): carry from `sum > 0xFF`, overflow from
`(~(A ^ value) & (A ^ sum) & 0x80) !== 0`, then `A = sum & 0xFF` and Z/N. -/
def add (c : CPUState) (value : Nat) : CPUState :=
  let carry := if getFlag c CpuFlags.Carry then 1 else 0
  let sum := c.A + value + carry
  let c := setFlag c CpuFlags.Carry (decide (0xFF < sum))
  let hasOverflow := (jsNot32 (c.A ^^^ value) &&& (c.A ^^^ sum) &&& 0x80) != 0
  let c := setFlag c CpuFlags.Overflow hasOverflow
  let c := { c with A := sum &&& 0xFF }
  updateZeroNegativeFlags c c.A

/-- `CPU.subtract`: ADC of the one's complement. -/
def subtract (c : CPUState) (value : Nat) : CPUState :=
  add c (jsNot32 value &&& 0xFF)

/-- `CPU.compare`. -/
def compare (c : CPUState) (register value : Nat) : CPUState :=
  let result := jsAnd8 ((register : Int) - value)
  let c := setFlag c CpuFlags.Carry (decide (value ≤ register))
  updateZeroNegativeFlags c result

/-- `CPU.bit`. -/
def bitTest (c : CPUState) (value : Nat) : CPUState :=
  let result := c.A &&& value
  let c := setFlag c CpuFlags.Zero (result == 0)
  let c := setFlag c CpuFlags.Overflow ((value &&& 0x40) != 0)
  setFlag c CpuFlags.Negative ((value &&& 0x80) != 0)

/-- `CPU.incrementMemory`. -/
def incrementMemory (s : NES) (addr : Nat) : Except MemError NES :=
  match Memory.read s addr with
  | .error e => .error e
  | .ok (b, s) =>
    let value := (b + 1) &&& 0xFF
    let s := Memory.write s addr value
    .ok { s with cpu := updateZeroNegativeFlags s.cpu value }

/-- `CPU.decrementMemory` (the JS `- 1` can wrap below zero). -/
def decrementMemory (s : NES) (addr : Nat) : Except MemError NES :=
  match Memory.read s addr with
  | .error e => .error e
  | .ok (b, s) =>
    let value := jsAnd8 ((b : Int) - 1)
    let s := Memory.write s addr value
    .ok { s with cpu := updateZeroNegativeFlags s.cpu value }

/-- `CPU.asl`: returns the shifted value and updates C/Z/N. -/
def asl (c : CPUState) (value : Nat) : Nat × CPUState :=
  let result := (value <<< 1) &&& 0xFF
  let c := setFlag c CpuFlags.Carry ((value &&& 0x80) != 0)
  let c := setFlag c CpuFlags.Zero (result == 0)
  let c := setFlag c CpuFlags.Negative ((result &&& 0x80) != 0)
  (result, c)

/-- `CPU.lsr`. -/
def lsr (c : CPUState) (value : Nat) : Nat × CPUState :=
  let result := value >>> 1
  let c := setFlag c CpuFlags.Carry ((value &&& 0x01) != 0)
  let c := setFlag c CpuFlags.Zero (result == 0)
  let c := setFlag c CpuFlags.Negative false
  (result, c)

/-- `CPU.rol`. -/
def rol (c : CPUState) (value : Nat) : Nat × CPUState :=
  let oldCarry := if getFlag c CpuFlags.Carry then 1 else 0
  let result := ((value <<< 1) ||| oldCarry) &&& 0xFF
  let c := setFlag c CpuFlags.Carry ((value &&& 0x80) != 0)
  let c := setFlag c CpuFlags.Zero (result == 0)
  let c := setFlag c CpuFlags.Negative ((result &&& 0x80) != 0)
  (result, c)

/-- `CPU.ror`. -/
def ror (c : CPUState) (value : Nat) : Nat × CPUState :=
  let oldCarry := if getFlag c CpuFlags.Carry then 0x80 else 0
  let result := (value >>> 1) ||| oldCarry
  let c := setFlag c CpuFlags.Carry ((value &&& 0x01) != 0)
  let c := setFlag c CpuFlags.Zero (result == 0)
  let c := setFlag c CpuFlags.Negative ((result &&& 0x80) != 0)
  (result, c)

end CPU

/-- One entry of the `populateInstructions` table of `cpu.ts`.  The `bytes`
field is carried by the source but never consulted by `step`. -/
structure Instruction where
  bytes : Nat
  cycles : Nat
  execute : NES → Except MemError NES

namespace Instr

open CPU

/-- Opcode 0x00, BRK. -/
def i00 : Instruction :=
  { bytes := 2, cycles := 7, execute := fun s =>
      let s := pushWord s ((s.cpu.PC : Int) + 1)
      let s := pushByte s (s.cpu.SR ||| CpuFlags.Break)
      let s := { s with cpu := setFlag s.cpu CpuFlags.InterruptDisable true }
      match Memory.read s 0xFFFE with
      | .error e => .error e
      | .ok (lo, s) =>
        match Memory.read s 0xFFFF with
        | .error e => .error e
        | .ok (hi, s) => .ok { s with cpu := { s.cpu with PC := lo ||| (hi <<< 8) } } }

/-- Opcode 0x58, CLI. -/
def i58 : Instruction :=
  { bytes := 1, cycles := 2, execute := fun s =>
      .ok { s with cpu := setFlag s.cpu CpuFlags.InterruptDisable false } }

/-- Opcode 0x78, SEI. -/
def i78 : Instruction :=
  { bytes := 1, cycles := 2, execute := fun s =>
      .ok { s with cpu := setFlag s.cpu CpuFlags.InterruptDisable true } }

/-- Opcode 0xEA, NOP. -/
def iEA : Instruction :=
  { bytes := 1, cycles := 2, execute := fun s => .ok s }

/-- Opcode 0xA9, LDA immediate. -/
def iA9 : Instruction :=
  { bytes := 2, cycles := 2, execute := fun s =>
      match operandImmediate s with
      | .error e => .error e
      | .ok (value, s) =>
        let c := { s.cpu with A := value }
        let c := setFlag c CpuFlags.Zero (c.A == 0)
        let c := setFlag c CpuFlags.Negative ((c.A &&& 0x80) != 0)
        .ok { s with cpu := c } }

/-- Opcode 0xA5, LDA zero page. -/
def iA5 : Instruction :=
  { bytes := 2, cycles := 3, execute := fun s =>
      match operandZeroPage s with
      | .error e => .error e
      | .ok (address, s) =>
        match Memory.read s address with
        | .error e => .error e
        | .ok (value, s) =>
          let c := { s.cpu with A := value }
          let c := setFlag c CpuFlags.Zero (c.A == 0)
          let c := setFlag c CpuFlags.Negative ((c.A &&& 0x80) != 0)
          .ok { s with cpu := c } }

/-- Opcode 0x85, STA zero page. -/
def i85 : Instruction :=
  { bytes := 3, cycles := 3, execute := fun s =>
      match addrZeroPage s with
      | .error e => .error e
      | .ok (addr, s) => .ok (Memory.write s addr s.cpu.A) }

/-- Opcode 0x95, STA zero page,X. -/
def i95 : Instruction :=
  { bytes := 4, cycles := 4, execute := fun s =>
      match addrZeroPageX s with
      | .error e => .error e
      | .ok (addr, s) => .ok (Memory.write s addr s.cpu.A) }

/-- Opcode 0x8D, STA absolute. -/
def i8D : Instruction :=
  { bytes := 4, cycles := 4, execute := fun s =>
      match addrAbsolute s with
      | .error e => .error e
      | .ok (addr, s) => .ok (Memory.write s addr s.cpu.A) }

/-- Opcode 0x9D, STA absolute,X. -/
def i9D : Instruction :=
  { bytes := 5, cycles := 5, execute := fun s =>
      match addrAbsoluteX s with
      | .error e => .error e
      | .ok (addr, s) => .ok (Memory.write s addr s.cpu.A) }

/-- Opcode 0x99, STA absolute,Y. -/
def i99 : Instruction :=
  { bytes := 5, cycles := 5, execute := fun s =>
      match addrAbsoluteY s with
      | .error e => .error e
      | .ok (addr, s) => .ok (Memory.write s addr s.cpu.A) }

/-- Opcode 0x81, STA (indirect,X). -/
def i81 : Instruction :=
  { bytes := 6, cycles := 6, execute := fun s =>
      match addrIndirectX s with
      | .error e => .error e
      | .ok (addr, s) => .ok (Memory.write s addr s.cpu.A) }

/-- Opcode 0x91, STA (indirect),Y. -/
def i91 : Instruction :=
  { bytes := 6, cycles := 6, execute := fun s =>
      match addrIndirectY s with
      | .error e => .error e
      | .ok (addr, s) => .ok (Memory.write s addr s.cpu.A) }

/-- Opcode 0x4C, JMP absolute.  The source assigns this opcode twice with
identical bodies; the record keeps a single entry. -/
def i4C : Instruction :=
  { bytes := 3, cycles := 3, execute := fun s =>
      match operandAbsolute s with
      | .error e => .error e
      | .ok (addr, s) => .ok { s with cpu := { s.cpu with PC := addr } } }

/-- Opcode 0xB5, LDA zero page,X. -/
def iB5 : Instruction :=
  { bytes := 4, cycles := 4, execute := fun s =>
      match operandZeroPageX s with
      | .error e => .error e
      | .ok (addr, s) =>
        match Memory.read s addr with
        | .error e => .error e
        | .ok (value, s) =>
          let c := updateZeroNegativeFlags { s.cpu with A := value } value
          .ok { s with cpu := c } }

/-- Opcode 0xAD, labelled `LDA Absolute` in the source — but the body stores
the 16-bit operand address itself into `A` instead of the byte it points at. -/
def iAD : Instruction :=
  { bytes := 4, cycles := 4, execute := fun s =>
      match operandAbsolute s with
      | .error e => .error e
      | .ok (value, s) =>
        let c := updateZeroNegativeFlags { s.cpu with A := value } value
        .ok { s with cpu := c } }

/-- Opcode 0xBD, labelled `LDA Absolute,X`: same address-into-A slip. -/
def iBD : Instruction :=
  { bytes := 4, cycles := 4, execute := fun s =>
      match operandAbsoluteX s with
      | .error e => .error e
      | .ok (value, s) =>
        let c := updateZeroNegativeFlags { s.cpu with A := value } value
        .ok { s with cpu := c } }

/-- Opcode 0xB9, labelled `LDA Absolute,Y`: same address-into-A slip. -/
def iB9 : Instruction :=
  { bytes := 4, cycles := 4, execute := fun s =>
      match operandAbsoluteY s with
      | .error e => .error e
      | .ok (value, s) =>
        let c := updateZeroNegativeFlags { s.cpu with A := value } value
        .ok { s with cpu := c } }

/-- Opcode 0xA1, labelled `LDA (Indirect,X)`: same address-into-A slip. -/
def iA1 : Instruction :=
  { bytes := 6, cycles := 6, execute := fun s =>
      match operandIndirectX s with
      | .error e => .error e
      | .ok (value, s) =>
        let c := updateZeroNegativeFlags { s.cpu with A := value } value
        .ok { s with cpu := c } }

/-- Opcode 0xB1, labelled `LDA (Indirect),Y`: same address-into-A slip. -/
def iB1 : Instruction :=
  { bytes := 5, cycles := 5, execute := fun s =>
      match operandIndirectY s with
      | .error e => .error e
      | .ok (value, s) =>
        let c := updateZeroNegativeFlags { s.cpu with A := value } value
        .ok { s with cpu := c } }

/-- Opcode 0xA2, LDX immediate. -/
def iA2 : Instruction :=
  { bytes := 2, cycles := 2, execute := fun s =>
      match operandImmediate s with
      | .error e => .error e
      | .ok (value, s) =>
        let c := updateZeroNegativeFlags { s.cpu with X := value } value
        .ok { s with cpu := c } }

/-- Opcode 0xA6, LDX zero page. -/
def iA6 : Instruction :=
  { bytes := 3, cycles := 3, execute := fun s =>
      match operandZeroPage s with
      | .error e => .error e
      | .ok (addr, s) =>
        match Memory.read s addr with
        | .error e => .error e
        | .ok (value, s) =>
          let c := updateZeroNegativeFlags { s.cpu with X := value } value
          .ok { s with cpu := c } }

/-- Opcode 0xB6, LDX zero page,Y. -/
def iB6 : Instruction :=
  { bytes := 4, cycles := 4, execute := fun s =>
      match operandZeroPageY s with
      | .error e => .error e
      | .ok (addr, s) =>
        match Memory.read s addr with
        | .error e => .error e
        | .ok (value, s) =>
          let c := updateZeroNegativeFlags { s.cpu with X := value } value
          .ok { s with cpu := c } }

/-- Opcode 0xAE, LDX absolute. -/
def iAE : Instruction :=
  { bytes := 4, cycles := 4, execute := fun s =>
      match operandAbsolute s with
      | .error e => .error e
      | .ok (addr, s) =>
        match Memory.read s addr with
        | .error e => .error e
        | .ok (value, s) =>
          let c := updateZeroNegativeFlags { s.cpu with X := value } value
          .ok { s with cpu := c } }

/-- Opcode 0xBE, LDX absolute,Y. -/
def iBE : Instruction :=
  { bytes := 4, cycles := 4, execute := fun s =>
      match operandAbsoluteY s with
      | .error e => .error e
      | .ok (addr, s) =>
        match Memory.read s addr with
        | .error e => .error e
        | .ok (value, s) =>
          let c := updateZeroNegativeFlags { s.cpu with X := value } value
          .ok { s with cpu := c } }

/-- Opcode 0xA0, LDY immediate. -/
def iA0 : Instruction :=
  { bytes := 2, cycles := 2, execute := fun s =>
      match operandImmediate s with
      | .error e => .error e
      | .ok (value, s) =>
        let c := updateZeroNegativeFlags { s.cpu with Y := value } value
        .ok { s with cpu := c } }

/-- Opcode 0xA4, LDY zero page. -/
def iA4 : Instruction :=
  { bytes := 3, cycles := 3, execute := fun s =>
      match operandZeroPage s with
      | .error e => .error e
      | .ok (addr, s) =>
        match Memory.read s addr with
        | .error e => .error e
        | .ok (value, s) =>
          let c := updateZeroNegativeFlags { s.cpu with Y := value } value
          .ok { s with cpu := c } }

/-- Opcode 0xB4, LDY zero page,X. -/
def iB4 : Instruction :=
  { bytes := 4, cycles := 4, execute := fun s =>
      match operandZeroPageX s with
      | .error e => .error e
      | .ok (addr, s) =>
        match Memory.read s addr with
        | .error e => .error e
        | .ok (value, s) =>
          let c := updateZeroNegativeFlags { s.cpu with Y := value } value
          .ok { s with cpu := c } }

/-- Opcode 0xAC, LDY absolute. -/
def iAC : Instruction :=
  { bytes := 4, cycles := 4, execute := fun s =>
      match operandAbsolute s with
      | .error e => .error e
      | .ok (addr, s) =>
        match Memory.read s addr with
        | .error e => .error e
        | .ok (value, s) =>
          let c := updateZeroNegativeFlags { s.cpu with Y := value } value
          .ok { s with cpu := c } }

/-- Opcode 0xBC, LDY absolute,X. -/
def iBC : Instruction :=
  { bytes := 4, cycles := 4, execute := fun s =>
      match operandAbsoluteX s with
      | .error e => .error e
      | .ok (addr, s) =>
        match Memory.read s addr with
        | .error e => .error e
        | .ok (value, s) =>
          let c := updateZeroNegativeFlags { s.cpu with Y := value } value
          .ok { s with cpu := c } }

/-- Opcode 0x86, STX zero page. -/
def i86 : Instruction :=
  { bytes := 3, cycles := 3, execute := fun s =>
      match addrZeroPage s with
      | .error e => .error e
      | .ok (addr, s) => .ok (Memory.write s addr s.cpu.X) }

/-- Opcode 0x96, STX zero page,Y. -/
def i96 : Instruction :=
  { bytes := 4, cycles := 4, execute := fun s =>
      match addrZeroPageY s with
      | .error e => .error e
      | .ok (addr, s) => .ok (Memory.write s addr s.cpu.X) }

/-- Opcode 0x8E, STX absolute. -/
def i8E : Instruction :=
  { bytes := 4, cycles := 4, execute := fun s =>
      match addrAbsolute s with
      | .error e => .error e
      | .ok (addr, s) => .ok (Memory.write s addr s.cpu.X) }

/-- Opcode 0x84, STY zero page. -/
def i84 : Instruction :=
  { bytes := 3, cycles := 3, execute := fun s =>
      match addrZeroPage s with
      | .error e => .error e
      | .ok (addr, s) => .ok (Memory.write s addr s.cpu.Y) }

/-- Opcode 0x94, STY zero page,X. -/
def i94 : Instruction :=
  { bytes := 4, cycles := 4, execute := fun s =>
      match addrZeroPageX s with
      | .error e => .error e
      | .ok (addr, s) => .ok (Memory.write s addr s.cpu.Y) }

/-- Opcode 0x8C, STY absolute. -/
def i8C : Instruction :=
  { bytes := 4, cycles := 4, execute := fun s =>
      match addrAbsolute s with
      | .error e => .error e
      | .ok (addr, s) => .ok (Memory.write s addr s.cpu.Y) }

/-- Opcode 0x69, ADC immediate. -/
def i69 : Instruction :=
  { bytes := 2, cycles := 2, execute := fun s =>
      match operandImmediate s with
      | .error e => .error e
      | .ok (value, s) => .ok { s with cpu := add s.cpu value } }

/-- Opcode 0x65, ADC zero page. -/
def i65 : Instruction :=
  { bytes := 3, cycles := 3, execute := fun s =>
      match operandZeroPage s with
      | .error e => .error e
      | .ok (addr, s) =>
        match Memory.read s addr with
        | .error e => .error e
        | .ok (value, s) => .ok { s with cpu := add s.cpu value } }

/-- Opcode 0x75, ADC zero page,X. -/
def i75 : Instruction :=
  { bytes := 4, cycles := 4, execute := fun s =>
      match operandZeroPageX s with
      | .error e => .error e
      | .ok (addr, s) =>
        match Memory.read s addr with
        | .error e => .error e
        | .ok (value, s) => .ok { s with cpu := add s.cpu value } }

/-- Opcode 0x6D, ADC absolute. -/
def i6D : Instruction :=
  { bytes := 4, cycles := 4, execute := fun s =>
      match operandAbsolute s with
      | .error e => .error e
      | .ok (addr, s) =>
        match Memory.read s addr with
        | .error e => .error e
        | .ok (value, s) => .ok { s with cpu := add s.cpu value } }

/-- Opcode 0x7D, ADC absolute,X. -/
def i7D : Instruction :=
  { bytes := 4, cycles := 4, execute := fun s =>
      match operandAbsoluteX s with
      | .error e => .error e
      | .ok (addr, s) =>
        match Memory.read s addr with
        | .error e => .error e
        | .ok (value, s) => .ok { s with cpu := add s.cpu value } }

/-- Opcode 0x79, ADC absolute,Y. -/
def i79 : Instruction :=
  { bytes := 4, cycles := 4, execute := fun s =>
      match operandAbsoluteY s with
      | .error e => .error e
      | .ok (addr, s) =>
        match Memory.read s addr with
        | .error e => .error e
        | .ok (value, s) => .ok { s with cpu := add s.cpu value } }

/-- Opcode 0x61, ADC (indirect,X). -/
def i61 : Instruction :=
  { bytes := 6, cycles := 6, execute := fun s =>
      match operandIndirectX s with
      | .error e => .error e
      | .ok (addr, s) =>
        match Memory.read s addr with
        | .error e => .error e
        | .ok (value, s) => .ok { s with cpu := add s.cpu value } }

/-- Opcode 0x71, ADC (indirect),Y. -/
def i71 : Instruction :=
  { bytes := 5, cycles := 5, execute := fun s =>
      match operandIndirectY s with
      | .error e => .error e
      | .ok (addr, s) =>
        match Memory.read s addr with
        | .error e => .error e
        | .ok (value, s) => .ok { s with cpu := add s.cpu value } }

/-- Opcode 0xE9, SBC immediate. -/
def iE9 : Instruction :=
  { bytes := 2, cycles := 2, execute := fun s =>
      match operandImmediate s with
      | .error e => .error e
      | .ok (value, s) => .ok { s with cpu := subtract s.cpu value } }

/-- Opcode 0xE5, SBC zero page. -/
def iE5 : Instruction :=
  { bytes := 3, cycles := 3, execute := fun s =>
      match operandZeroPage s with
      | .error e => .error e
      | .ok (addr, s) =>
        match Memory.read s addr with
        | .error e => .error e
        | .ok (value, s) => .ok { s with cpu := subtract s.cpu value } }

/-- Opcode 0xF5, SBC zero page,X. -/
def iF5 : Instruction :=
  { bytes := 4, cycles := 4, execute := fun s =>
      match operandZeroPageX s with
      | .error e => .error e
      | .ok (addr, s) =>
        match Memory.read s addr with
        | .error e => .error e
        | .ok (value, s) => .ok { s with cpu := subtract s.cpu value } }

/-- Opcode 0xED, SBC absolute. -/
def iED : Instruction :=
  { bytes := 4, cycles := 4, execute := fun s =>
      match operandAbsolute s with
      | .error e => .error e
      | .ok (addr, s) =>
        match Memory.read s addr with
        | .error e => .error e
        | .ok (value, s) => .ok { s with cpu := subtract s.cpu value } }

/-- Opcode 0xFD, SBC absolute,X. -/
def iFD : Instruction :=
  { bytes := 4, cycles := 4, execute := fun s =>
      match operandAbsoluteX s with
      | .error e => .error e
      | .ok (addr, s) =>
        match Memory.read s addr with
        | .error e => .error e
        | .ok (value, s) => .ok { s with cpu := subtract s.cpu value } }

/-- Opcode 0xF9, SBC absolute,Y. -/
def iF9 : Instruction :=
  { bytes := 4, cycles := 4, execute := fun s =>
      match operandAbsoluteY s with
      | .error e => .error e
      | .ok (addr, s) =>
        match Memory.read s addr with
        | .error e => .error e
        | .ok (value, s) => .ok { s with cpu := subtract s.cpu value } }

/-- Opcode 0xE1, SBC (indirect,X). -/
def iE1 : Instruction :=
  { bytes := 6, cycles := 6, execute := fun s =>
      match operandIndirectX s with
      | .error e => .error e
      | .ok (addr, s) =>
        match Memory.read s addr with
        | .error e => .error e
        | .ok (value, s) => .ok { s with cpu := subtract s.cpu value } }

/-- Opcode 0xF1, SBC (indirect),Y. -/
def iF1 : Instruction :=
  { bytes := 5, cycles := 5, execute := fun s =>
      match operandIndirectY s with
      | .error e => .error e
      | .ok (addr, s) =>
        match Memory.read s addr with
        | .error e => .error e
        | .ok (value, s) => .ok { s with cpu := subtract s.cpu value } }

/-- Opcode 0xC9, CMP immediate. -/
def iC9 : Instruction :=
  { bytes := 2, cycles := 2, execute := fun s =>
      match operandImmediate s with
      | .error e => .error e
      | .ok (value, s) => .ok { s with cpu := compare s.cpu s.cpu.A value } }

/-- Opcode 0xC5, CMP zero page. -/
def iC5 : Instruction :=
  { bytes := 3, cycles := 3, execute := fun s =>
      match operandZeroPage s with
      | .error e => .error e
      | .ok (addr, s) =>
        match Memory.read s addr with
        | .error e => .error e
        | .ok (value, s) => .ok { s with cpu := compare s.cpu s.cpu.A value } }

/-- Opcode 0xD5, CMP zero page,X. -/
def iD5 : Instruction :=
  { bytes := 4, cycles := 4, execute := fun s =>
      match operandZeroPageX s with
      | .error e => .error e
      | .ok (addr, s) =>
        match Memory.read s addr with
        | .error e => .error e
        | .ok (value, s) => .ok { s with cpu := compare s.cpu s.cpu.A value } }

/-- Opcode 0xCD, CMP absolute. -/
def iCD : Instruction :=
  { bytes := 4, cycles := 4, execute := fun s =>
      match operandAbsolute s with
      | .error e => .error e
      | .ok (addr, s) =>
        match Memory.read s addr with
        | .error e => .error e
        | .ok (value, s) => .ok { s with cpu := compare s.cpu s.cpu.A value } }

/-- Opcode 0xDD, CMP absolute,X. -/
def iDD : Instruction :=
  { bytes := 4, cycles := 4, execute := fun s =>
      match operandAbsoluteX s with
      | .error e => .error e
      | .ok (addr, s) =>
        match Memory.read s addr with
        | .error e => .error e
        | .ok (value, s) => .ok { s with cpu := compare s.cpu s.cpu.A value } }

/-- Opcode 0xD9, CMP absolute,Y. -/
def iD9 : Instruction :=
  { bytes := 4, cycles := 4, execute := fun s =>
      match operandAbsoluteY s with
      | .error e => .error e
      | .ok (addr, s) =>
        match Memory.read s addr with
        | .error e => .error e
        | .ok (value, s) => .ok { s with cpu := compare s.cpu s.cpu.A value } }

/-- Opcode 0xC1, CMP (indirect,X). -/
def iC1 : Instruction :=
  { bytes := 6, cycles := 6, execute := fun s =>
      match operandIndirectX s with
      | .error e => .error e
      | .ok (addr, s) =>
        match Memory.read s addr with
        | .error e => .error e
        | .ok (value, s) => .ok { s with cpu := compare s.cpu s.cpu.A value } }

/-- Opcode 0xD1, CMP (indirect),Y. -/
def iD1 : Instruction :=
  { bytes := 5, cycles := 5, execute := fun s =>
      match operandIndirectY s with
      | .error e => .error e
      | .ok (addr, s) =>
        match Memory.read s addr with
        | .error e => .error e
        | .ok (value, s) => .ok { s with cpu := compare s.cpu s.cpu.A value } }

/-- Opcode 0xE0, CPX immediate. -/
def iE0 : Instruction :=
  { bytes := 2, cycles := 2, execute := fun s =>
      match operandImmediate s with
      | .error e => .error e
      | .ok (value, s) => .ok { s with cpu := compare s.cpu s.cpu.X value } }

/-- Opcode 0xE4, CPX zero page. -/
def iE4 : Instruction :=
  { bytes := 3, cycles := 3, execute := fun s =>
      match operandZeroPage s with
      | .error e => .error e
      | .ok (addr, s) =>
        match Memory.read s addr with
        | .error e => .error e
        | .ok (value, s) => .ok { s with cpu := compare s.cpu s.cpu.X value } }

/-- Opcode 0xEC, CPX absolute. -/
def iEC : Instruction :=
  { bytes := 4, cycles := 4, execute := fun s =>
      match operandAbsolute s with
      | .error e => .error e
      | .ok (addr, s) =>
        match Memory.read s addr with
        | .error e => .error e
        | .ok (value, s) => .ok { s with cpu := compare s.cpu s.cpu.X value } }

/-- Opcode 0xC0, CPY immediate. -/
def iC0 : Instruction :=
  { bytes := 2, cycles := 2, execute := fun s =>
      match operandImmediate s with
      | .error e => .error e
      | .ok (value, s) => .ok { s with cpu := compare s.cpu s.cpu.Y value } }

/-- Opcode 0xC4, CPY zero page. -/
def iC4 : Instruction :=
  { bytes := 3, cycles := 3, execute := fun s =>
      match operandZeroPage s with
      | .error e => .error e
      | .ok (addr, s) =>
        match Memory.read s addr with
        | .error e => .error e
        | .ok (value, s) => .ok { s with cpu := compare s.cpu s.cpu.Y value } }

/-- Opcode 0xCC, CPY absolute. -/
def iCC : Instruction :=
  { bytes := 4, cycles := 4, execute := fun s =>
      match operandAbsolute s with
      | .error e => .error e
      | .ok (addr, s) =>
        match Memory.read s addr with
        | .error e => .error e
        | .ok (value, s) => .ok { s with cpu := compare s.cpu s.cpu.Y value } }

/-- Opcode 0xF0, BEQ: branch when the Zero flag is set; taken branches add a
cycle, and a page change between the fall-through address and the target adds
another (recorded as `cycles += 2` in that arm). -/
def iF0 : Instruction :=
  { bytes := 2, cycles := 2, execute := fun s =>
      match fetchByte s with
      | .error e => .error e
      | .ok (offset, s) =>
        if getFlag s.cpu CpuFlags.Zero then
          let oldPC := s.cpu.PC
          let signedOffset : Int := (((offset ^^^ 0x80 : Nat)) : Int) - 0x80
          let newPC := jsAnd16 ((oldPC : Int) + signedOffset)
          let s := { s with cpu := { s.cpu with PC := newPC } }
          if (oldPC &&& 0xFF00) ≠ (newPC &&& 0xFF00) then
            .ok { s with cpu := { s.cpu with cycles := s.cpu.cycles + 2 } }
          else
            .ok { s with cpu := { s.cpu with cycles := s.cpu.cycles + 1 } }
        else .ok s }

/-- Opcode 0xD0, BNE. -/
def iD0 : Instruction :=
  { bytes := 2, cycles := 2, execute := fun s =>
      match fetchByte s with
      | .error e => .error e
      | .ok (offset, s) =>
        if ¬ getFlag s.cpu CpuFlags.Zero then
          let oldPC := s.cpu.PC
          let signedOffset : Int := (((offset ^^^ 0x80 : Nat)) : Int) - 0x80
          let newPC := jsAnd16 ((oldPC : Int) + signedOffset)
          let s := { s with cpu := { s.cpu with PC := newPC } }
          if (oldPC &&& 0xFF00) ≠ (newPC &&& 0xFF00) then
            .ok { s with cpu := { s.cpu with cycles := s.cpu.cycles + 2 } }
          else
            .ok { s with cpu := { s.cpu with cycles := s.cpu.cycles + 1 } }
        else .ok s }

/-- Opcode 0xB0, BCS. -/
def iB0 : Instruction :=
  { bytes := 2, cycles := 2, execute := fun s =>
      match fetchByte s with
      | .error e => .error e
      | .ok (offset, s) =>
        if getFlag s.cpu CpuFlags.Carry then
          let oldPC := s.cpu.PC
          let signedOffset : Int := (((offset ^^^ 0x80 : Nat)) : Int) - 0x80
          let newPC := jsAnd16 ((oldPC : Int) + signedOffset)
          let s := { s with cpu := { s.cpu with PC := newPC } }
          if (oldPC &&& 0xFF00) ≠ (newPC &&& 0xFF00) then
            .ok { s with cpu := { s.cpu with cycles := s.cpu.cycles + 2 } }
          else
            .ok { s with cpu := { s.cpu with cycles := s.cpu.cycles + 1 } }
        else .ok s }

/-- Opcode 0x90, BCC. -/
def i90 : Instruction :=
  { bytes := 2, cycles := 2, execute := fun s =>
      match fetchByte s with
      | .error e => .error e
      | .ok (offset, s) =>
        if ¬ getFlag s.cpu CpuFlags.Carry then
          let oldPC := s.cpu.PC
          let signedOffset : Int := (((offset ^^^ 0x80 : Nat)) : Int) - 0x80
          let newPC := jsAnd16 ((oldPC : Int) + signedOffset)
          let s := { s with cpu := { s.cpu with PC := newPC } }
          if (oldPC &&& 0xFF00) ≠ (newPC &&& 0xFF00) then
            .ok { s with cpu := { s.cpu with cycles := s.cpu.cycles + 2 } }
          else
            .ok { s with cpu := { s.cpu with cycles := s.cpu.cycles + 1 } }
        else .ok s }

/-- Opcode 0x70, BVS. -/
def i70 : Instruction :=
  { bytes := 2, cycles := 2, execute := fun s =>
      match fetchByte s with
      | .error e => .error e
      | .ok (offset, s) =>
        if getFlag s.cpu CpuFlags.Overflow then
          let oldPC := s.cpu.PC
          let signedOffset : Int := (((offset ^^^ 0x80 : Nat)) : Int) - 0x80
          let newPC := jsAnd16 ((oldPC : Int) + signedOffset)
          let s := { s with cpu := { s.cpu with PC := newPC } }
          if (oldPC &&& 0xFF00) ≠ (newPC &&& 0xFF00) then
            .ok { s with cpu := { s.cpu with cycles := s.cpu.cycles + 2 } }
          else
            .ok { s with cpu := { s.cpu with cycles := s.cpu.cycles + 1 } }
        else .ok s }

/-- Opcode 0x50, BVC. -/
def i50 : Instruction :=
  { bytes := 2, cycles := 2, execute := fun s =>
      match fetchByte s with
      | .error e => .error e
      | .ok (offset, s) =>
        if ¬ getFlag s.cpu CpuFlags.Overflow then
          let oldPC := s.cpu.PC
          let signedOffset : Int := (((offset ^^^ 0x80 : Nat)) : Int) - 0x80
          let newPC := jsAnd16 ((oldPC : Int) + signedOffset)
          let s := { s with cpu := { s.cpu with PC := newPC } }
          if (oldPC &&& 0xFF00) ≠ (newPC &&& 0xFF00) then
            .ok { s with cpu := { s.cpu with cycles := s.cpu.cycles + 2 } }
          else
            .ok { s with cpu := { s.cpu with cycles := s.cpu.cycles + 1 } }
        else .ok s }

/-- Opcode 0x30, BMI. -/
def i30 : Instruction :=
  { bytes := 2, cycles := 2, execute := fun s =>
      match fetchByte s with
      | .error e => .error e
      | .ok (offset, s) =>
        if getFlag s.cpu CpuFlags.Negative then
          let oldPC := s.cpu.PC
          let signedOffset : Int := (((offset ^^^ 0x80 : Nat)) : Int) - 0x80
          let newPC := jsAnd16 ((oldPC : Int) + signedOffset)
          let s := { s with cpu := { s.cpu with PC := newPC } }
          if (oldPC &&& 0xFF00) ≠ (newPC &&& 0xFF00) then
            .ok { s with cpu := { s.cpu with cycles := s.cpu.cycles + 2 } }
          else
            .ok { s with cpu := { s.cpu with cycles := s.cpu.cycles + 1 } }
        else .ok s }

/-- Opcode 0x10, BPL. -/
def i10 : Instruction :=
  { bytes := 2, cycles := 2, execute := fun s =>
      match fetchByte s with
      | .error e => .error e
      | .ok (offset, s) =>
        if ¬ getFlag s.cpu CpuFlags.Negative then
          let oldPC := s.cpu.PC
          let signedOffset : Int := (((offset ^^^ 0x80 : Nat)) : Int) - 0x80
          let newPC := jsAnd16 ((oldPC : Int) + signedOffset)
          let s := { s with cpu := { s.cpu with PC := newPC } }
          if (oldPC &&& 0xFF00) ≠ (newPC &&& 0xFF00) then
            .ok { s with cpu := { s.cpu with cycles := s.cpu.cycles + 2 } }
          else
            .ok { s with cpu := { s.cpu with cycles := s.cpu.cycles + 1 } }
        else .ok s }

/-- `CPU.returnFromInterrupt` (used by RTI): pull P with U forced, pull PC. -/
def returnFromInterrupt (s : NES) : Except MemError NES :=
  match pullByte s with
  | .error e => .error e
  | .ok (sr, s) =>
    let s := { s with cpu := { s.cpu with SR := sr ||| CpuFlags.Unused } }
    match pullWord s with
    | .error e => .error e
    | .ok (pc, s) => .ok { s with cpu := { s.cpu with PC := pc } }

/-- Opcode 0x40, RTI. -/
def i40 : Instruction :=
  { bytes := 1, cycles := 6, execute := returnFromInterrupt }

/-- Opcode 0x48, PHA. -/
def i48 : Instruction :=
  { bytes := 1, cycles := 3, execute := fun s => .ok (pushByte s s.cpu.A) }

/-- Opcode 0x08, PHP: pushes P with B and U forced. -/
def i08 : Instruction :=
  { bytes := 1, cycles := 3, execute := fun s =>
      .ok (pushByte s (s.cpu.SR ||| CpuFlags.Break ||| CpuFlags.Unused)) }

/-- Opcode 0x68, PLA. -/
def i68 : Instruction :=
  { bytes := 1, cycles := 4, execute := fun s =>
      match pullByte s with
      | .error e => .error e
      | .ok (value, s) =>
        let c := updateZeroNegativeFlags { s.cpu with A := value } value
        .ok { s with cpu := c } }

/-- Opcode 0x28, PLP: B cleared, U forced. -/
def i28 : Instruction :=
  { bytes := 1, cycles := 4, execute := fun s =>
      match pullByte s with
      | .error e => .error e
      | .ok (value, s) =>
        .ok { s with cpu := { s.cpu with SR := (value &&& jsNot32 CpuFlags.Break) ||| CpuFlags.Unused } } }

/-- Opcode 0xAA, TAX. -/
def iAA : Instruction :=
  { bytes := 1, cycles := 2, execute := fun s =>
      let c := updateZeroNegativeFlags { s.cpu with X := s.cpu.A } s.cpu.A
      .ok { s with cpu := c } }

/-- Opcode 0xA8, TAY. -/
def iA8 : Instruction :=
  { bytes := 1, cycles := 2, execute := fun s =>
      let c := updateZeroNegativeFlags { s.cpu with Y := s.cpu.A } s.cpu.A
      .ok { s with cpu := c } }

/-- Opcode 0x8A, TXA. -/
def i8A : Instruction :=
  { bytes := 1, cycles := 2, execute := fun s =>
      let c := updateZeroNegativeFlags { s.cpu with A := s.cpu.X } s.cpu.X
      .ok { s with cpu := c } }

/-- Opcode 0x98, TYA. -/
def i98 : Instruction :=
  { bytes := 1, cycles := 2, execute := fun s =>
      let c := updateZeroNegativeFlags { s.cpu with A := s.cpu.Y } s.cpu.Y
      .ok { s with cpu := c } }

/-- Opcode 0xBA, TSX. -/
def iBA : Instruction :=
  { bytes := 1, cycles := 2, execute := fun s =>
      let c := updateZeroNegativeFlags { s.cpu with X := s.cpu.SP } s.cpu.SP
      .ok { s with cpu := c } }

/-- Opcode 0x9A, TXS (no flags). -/
def i9A : Instruction :=
  { bytes := 1, cycles := 2, execute := fun s =>
      .ok { s with cpu := { s.cpu with SP := s.cpu.X } } }

/-- Opcode 0xE8, INX. -/
def iE8 : Instruction :=
  { bytes := 1, cycles := 2, execute := fun s =>
      let value := (s.cpu.X + 1) &&& 0xFF
      .ok { s with cpu := updateZeroNegativeFlags { s.cpu with X := value } value } }

/-- Opcode 0xC8, INY. -/
def iC8 : Instruction :=
  { bytes := 1, cycles := 2, execute := fun s =>
      let value := (s.cpu.Y + 1) &&& 0xFF
      .ok { s with cpu := updateZeroNegativeFlags { s.cpu with Y := value } value } }

/-- Opcode 0xCA, DEX (`(X - 1) & 0xFF` wraps below zero in JS). -/
def iCA : Instruction :=
  { bytes := 1, cycles := 2, execute := fun s =>
      let value := jsAnd8 ((s.cpu.X : Int) - 1)
      .ok { s with cpu := updateZeroNegativeFlags { s.cpu with X := value } value } }

/-- Opcode 0x88, DEY. -/
def i88 : Instruction :=
  { bytes := 1, cycles := 2, execute := fun s =>
      let value := jsAnd8 ((s.cpu.Y : Int) - 1)
      .ok { s with cpu := updateZeroNegativeFlags { s.cpu with Y := value } value } }

/-- Opcode 0xE6, INC zero page. -/
def iE6 : Instruction :=
  { bytes := 2, cycles := 5, execute := fun s =>
      match operandZeroPage s with
      | .error e => .error e
      | .ok (addr, s) => incrementMemory s addr }

/-- Opcode 0xF6, INC zero page,X. -/
def iF6 : Instruction :=
  { bytes := 2, cycles := 6, execute := fun s =>
      match operandZeroPageX s with
      | .error e => .error e
      | .ok (addr, s) => incrementMemory s addr }

/-- Opcode 0xEE, INC absolute. -/
def iEE : Instruction :=
  { bytes := 3, cycles := 6, execute := fun s =>
      match operandAbsolute s with
      | .error e => .error e
      | .ok (addr, s) => incrementMemory s addr }

/-- Opcode 0xFE, INC absolute,X. -/
def iFE : Instruction :=
  { bytes := 3, cycles := 7, execute := fun s =>
      match operandAbsoluteX s with
      | .error e => .error e
      | .ok (addr, s) => incrementMemory s addr }

/-- Opcode 0xC6, DEC zero page. -/
def iC6 : Instruction :=
  { bytes := 2, cycles := 5, execute := fun s =>
      match operandZeroPage s with
      | .error e => .error e
      | .ok (addr, s) => decrementMemory s addr }

/-- Opcode 0xD6, DEC zero page,X. -/
def iD6 : Instruction :=
  { bytes := 2, cycles := 6, execute := fun s =>
      match operandZeroPageX s with
      | .error e => .error e
      | .ok (addr, s) => decrementMemory s addr }

/-- Opcode 0xCE, DEC absolute. -/
def iCE : Instruction :=
  { bytes := 3, cycles := 6, execute := fun s =>
      match operandAbsolute s with
      | .error e => .error e
      | .ok (addr, s) => decrementMemory s addr }

/-- Opcode 0xDE, DEC absolute,X. -/
def iDE : Instruction :=
  { bytes := 3, cycles := 7, execute := fun s =>
      match operandAbsoluteX s with
      | .error e => .error e
      | .ok (addr, s) => decrementMemory s addr }

/-- Opcode 0x0A, ASL accumulator. -/
def i0A : Instruction :=
  { bytes := 1, cycles := 2, execute := fun s =>
      let (result, c) := asl s.cpu s.cpu.A
      .ok { s with cpu := { c with A := result } } }

/-- Opcode 0x06, ASL zero page. -/
def i06 : Instruction :=
  { bytes := 2, cycles := 5, execute := fun s =>
      match operandZeroPage s with
      | .error e => .error e
      | .ok (addr, s) =>
        match Memory.read s addr with
        | .error e => .error e
        | .ok (value, s) =>
          let (result, c) := asl s.cpu value
          .ok (Memory.write { s with cpu := c } addr result) }

/-- Opcode 0x16, ASL zero page,X. -/
def i16 : Instruction :=
  { bytes := 2, cycles := 6, execute := fun s =>
      match operandZeroPageX s with
      | .error e => .error e
      | .ok (addr, s) =>
        match Memory.read s addr with
        | .error e => .error e
        | .ok (value, s) =>
          let (result, c) := asl s.cpu value
          .ok (Memory.write { s with cpu := c } addr result) }

/-- Opcode 0x0E, ASL absolute. -/
def i0E : Instruction :=
  { bytes := 3, cycles := 6, execute := fun s =>
      match operandAbsolute s with
      | .error e => .error e
      | .ok (addr, s) =>
        match Memory.read s addr with
        | .error e => .error e
        | .ok (value, s) =>
          let (result, c) := asl s.cpu value
          .ok (Memory.write { s with cpu := c } addr result) }

/-- Opcode 0x1E, ASL absolute,X. -/
def i1E : Instruction :=
  { bytes := 3, cycles := 7, execute := fun s =>
      match operandAbsoluteX s with
      | .error e => .error e
      | .ok (addr, s) =>
        match Memory.read s addr with
        | .error e => .error e
        | .ok (value, s) =>
          let (result, c) := asl s.cpu value
          .ok (Memory.write { s with cpu := c } addr result) }

/-- Opcode 0x4A, LSR accumulator. -/
def i4A : Instruction :=
  { bytes := 1, cycles := 2, execute := fun s =>
      let (result, c) := lsr s.cpu s.cpu.A
      .ok { s with cpu := { c with A := result } } }

/-- Opcode 0x46, LSR zero page. -/
def i46 : Instruction :=
  { bytes := 2, cycles := 5, execute := fun s =>
      match operandZeroPage s with
      | .error e => .error e
      | .ok (addr, s) =>
        match Memory.read s addr with
        | .error e => .error e
        | .ok (value, s) =>
          let (result, c) := lsr s.cpu value
          .ok (Memory.write { s with cpu := c } addr result) }

/-- Opcode 0x56, LSR zero page,X. -/
def i56 : Instruction :=
  { bytes := 2, cycles := 6, execute := fun s =>
      match operandZeroPageX s with
      | .error e => .error e
      | .ok (addr, s) =>
        match Memory.read s addr with
        | .error e => .error e
        | .ok (value, s) =>
          let (result, c) := lsr s.cpu value
          .ok (Memory.write { s with cpu := c } addr result) }

/-- Opcode 0x4E, LSR absolute. -/
def i4E : Instruction :=
  { bytes := 3, cycles := 6, execute := fun s =>
      match operandAbsolute s with
      | .error e => .error e
      | .ok (addr, s) =>
        match Memory.read s addr with
        | .error e => .error e
        | .ok (value, s) =>
          let (result, c) := lsr s.cpu value
          .ok (Memory.write { s with cpu := c } addr result) }

/-- Opcode 0x5E, LSR absolute,X. -/
def i5E : Instruction :=
  { bytes := 3, cycles := 7, execute := fun s =>
      match operandAbsoluteX s with
      | .error e => .error e
      | .ok (addr, s) =>
        match Memory.read s addr with
        | .error e => .error e
        | .ok (value, s) =>
          let (result, c) := lsr s.cpu value
          .ok (Memory.write { s with cpu := c } addr result) }

/-- Opcode 0x2A, ROL accumulator. -/
def i2A : Instruction :=
  { bytes := 1, cycles := 2, execute := fun s =>
      let (result, c) := rol s.cpu s.cpu.A
      .ok { s with cpu := { c with A := result } } }

/-- Opcode 0x26, ROL zero page. -/
def i26 : Instruction :=
  { bytes := 2, cycles := 5, execute := fun s =>
      match operandZeroPage s with
      | .error e => .error e
      | .ok (addr, s) =>
        match Memory.read s addr with
        | .error e => .error e
        | .ok (value, s) =>
          let (result, c) := rol s.cpu value
          .ok (Memory.write { s with cpu := c } addr result) }

/-- Opcode 0x36, ROL zero page,X. -/
def i36 : Instruction :=
  { bytes := 2, cycles := 6, execute := fun s =>
      match operandZeroPageX s with
      | .error e => .error e
      | .ok (addr, s) =>
        match Memory.read s addr with
        | .error e => .error e
        | .ok (value, s) =>
          let (result, c) := rol s.cpu value
          .ok (Memory.write { s with cpu := c } addr result) }

/-- Opcode 0x2E, ROL absolute. -/
def i2E : Instruction :=
  { bytes := 3, cycles := 6, execute := fun s =>
      match operandAbsolute s with
      | .error e => .error e
      | .ok (addr, s) =>
        match Memory.read s addr with
        | .error e => .error e
        | .ok (value, s) =>
          let (result, c) := rol s.cpu value
          .ok (Memory.write { s with cpu := c } addr result) }

/-- Opcode 0x3E, ROL absolute,X. -/
def i3E : Instruction :=
  { bytes := 3, cycles := 7, execute := fun s =>
      match operandAbsoluteX s with
      | .error e => .error e
      | .ok (addr, s) =>
        match Memory.read s addr with
        | .error e => .error e
        | .ok (value, s) =>
          let (result, c) := rol s.cpu value
          .ok (Memory.write { s with cpu := c } addr result) }

/-- Opcode 0x6A, ROR accumulator. -/
def i6A : Instruction :=
  { bytes := 1, cycles := 2, execute := fun s =>
      let (result, c) := ror s.cpu s.cpu.A
      .ok { s with cpu := { c with A := result } } }

/-- Opcode 0x66, ROR zero page. -/
def i66 : Instruction :=
  { bytes := 2, cycles := 5, execute := fun s =>
      match operandZeroPage s with
      | .error e => .error e
      | .ok (addr, s) =>
        match Memory.read s addr with
        | .error e => .error e
        | .ok (value, s) =>
          let (result, c) := ror s.cpu value
          .ok (Memory.write { s with cpu := c } addr result) }

/-- Opcode 0x76, ROR zero page,X. -/
def i76 : Instruction :=
  { bytes := 2, cycles := 6, execute := fun s =>
      match operandZeroPageX s with
      | .error e => .error e
      | .ok (addr, s) =>
        match Memory.read s addr with
        | .error e => .error e
        | .ok (value, s) =>
          let (result, c) := ror s.cpu value
          .ok (Memory.write { s with cpu := c } addr result) }

/-- Opcode 0x6E, ROR absolute. -/
def i6E : Instruction :=
  { bytes := 3, cycles := 6, execute := fun s =>
      match operandAbsolute s with
      | .error e => .error e
      | .ok (addr, s) =>
        match Memory.read s addr with
        | .error e => .error e
        | .ok (value, s) =>
          let (result, c) := ror s.cpu value
          .ok (Memory.write { s with cpu := c } addr result) }

/-- Opcode 0x7E, ROR absolute,X. -/
def i7E : Instruction :=
  { bytes := 3, cycles := 7, execute := fun s =>
      match operandAbsoluteX s with
      | .error e => .error e
      | .ok (addr, s) =>
        match Memory.read s addr with
        | .error e => .error e
        | .ok (value, s) =>
          let (result, c) := ror s.cpu value
          .ok (Memory.write { s with cpu := c } addr result) }

/-- Opcode 0x24, BIT zero page. -/
def i24 : Instruction :=
  { bytes := 2, cycles := 3, execute := fun s =>
      match operandZeroPage s with
      | .error e => .error e
      | .ok (addr, s) =>
        match Memory.read s addr with
        | .error e => .error e
        | .ok (value, s) => .ok { s with cpu := bitTest s.cpu value } }

/-- Opcode 0x2C, BIT absolute. -/
def i2C : Instruction :=
  { bytes := 3, cycles := 4, execute := fun s =>
      match operandAbsolute s with
      | .error e => .error e
      | .ok (addr, s) =>
        match Memory.read s addr with
        | .error e => .error e
        | .ok (value, s) => .ok { s with cpu := bitTest s.cpu value } }

/-- Opcode 0x18, CLC. -/
def i18 : Instruction :=
  { bytes := 1, cycles := 2, execute := fun s =>
      .ok { s with cpu := setFlag s.cpu CpuFlags.Carry false } }

/-- Opcode 0x38, SEC. -/
def i38 : Instruction :=
  { bytes := 1, cycles := 2, execute := fun s =>
      .ok { s with cpu := setFlag s.cpu CpuFlags.Carry true } }

/-- Opcode 0xB8, CLV. -/
def iB8 : Instruction :=
  { bytes := 1, cycles := 2, execute := fun s =>
      .ok { s with cpu := setFlag s.cpu CpuFlags.Overflow false } }

/-- Opcode 0xD8, CLD. -/
def iD8 : Instruction :=
  { bytes := 1, cycles := 2, execute := fun s =>
      .ok { s with cpu := setFlag s.cpu CpuFlags.Decimal false } }

/-- Opcode 0xF8, SED. -/
def iF8 : Instruction :=
  { bytes := 1, cycles := 2, execute := fun s =>
      .ok { s with cpu := setFlag s.cpu CpuFlags.Decimal true } }

/-- Opcode 0x20, JSR: pushes `PC - 1` after the operand fetch. -/
def i20 : Instruction :=
  { bytes := 3, cycles := 6, execute := fun s =>
      match operandAbsolute s with
      | .error e => .error e
      | .ok (targetAddr, s) =>
        let s := pushWord s ((s.cpu.PC : Int) - 1)
        .ok { s with cpu := { s.cpu with PC := targetAddr } } }

/-- Opcode 0x60, RTS. -/
def i60 : Instruction :=
  { bytes := 1, cycles := 6, execute := fun s =>
      match pullWord s with
      | .error e => .error e
      | .ok (word, s) =>
        .ok { s with cpu := { s.cpu with PC := (word + 1) &&& 0xFFFF } } }

/-- Opcode 0x6C, JMP indirect, with the 6502 page-boundary fetch bug. -/
def i6C : Instruction :=
  { bytes := 3, cycles := 5, execute := fun s =>
      match fetchWord s with
      | .error e => .error e
      | .ok (addr, s) =>
        match Memory.read s addr with
        | .error e => .error e
        | .ok (lo, s) =>
          match Memory.read s ((addr &&& 0xFF00) ||| ((addr + 1) &&& 0xFF)) with
          | .error e => .error e
          | .ok (hi, s) =>
            .ok { s with cpu := { s.cpu with PC := (hi <<< 8) ||| lo } } }

end Instr

/-- `populateInstructions` of `cpu.ts` as the lookup it builds: a partial map
from opcode to instruction.  Every opcode the source assigns appears here;
every other opcode is absent (`none`). -/
def populateInstructions : Nat → Option Instruction := fun opcode =>
  match opcode with
  | 0x00 => some Instr.i00
  | 0x58 => some Instr.i58
  | 0x78 => some Instr.i78
  | 0xEA => some Instr.iEA
  | 0xA9 => some Instr.iA9
  | 0xA5 => some Instr.iA5
  | 0x85 => some Instr.i85
  | 0x95 => some Instr.i95
  | 0x8D => some Instr.i8D
  | 0x9D => some Instr.i9D
  | 0x99 => some Instr.i99
  | 0x81 => some Instr.i81
  | 0x91 => some Instr.i91
  | 0x4C => some Instr.i4C
  | 0xB5 => some Instr.iB5
  | 0xAD => some Instr.iAD
  | 0xBD => some Instr.iBD
  | 0xB9 => some Instr.iB9
  | 0xA1 => some Instr.iA1
  | 0xB1 => some Instr.iB1
  | 0xA2 => some Instr.iA2
  | 0xA6 => some Instr.iA6
  | 0xB6 => some Instr.iB6
  | 0xAE => some Instr.iAE
  | 0xBE => some Instr.iBE
  | 0xA0 => some Instr.iA0
  | 0xA4 => some Instr.iA4
  | 0xB4 => some Instr.iB4
  | 0xAC => some Instr.iAC
  | 0xBC => some Instr.iBC
  | 0x86 => some Instr.i86
  | 0x96 => some Instr.i96
  | 0x8E => some Instr.i8E
  | 0x84 => some Instr.i84
  | 0x94 => some Instr.i94
  | 0x8C => some Instr.i8C
  | 0x69 => some Instr.i69
  | 0x65 => some Instr.i65
  | 0x75 => some Instr.i75
  | 0x6D => some Instr.i6D
  | 0x7D => some Instr.i7D
  | 0x79 => some Instr.i79
  | 0x61 => some Instr.i61
  | 0x71 => some Instr.i71
  | 0xE9 => some Instr.iE9
  | 0xE5 => some Instr.iE5
  | 0xF5 => some Instr.iF5
  | 0xED => some Instr.iED
  | 0xFD => some Instr.iFD
  | 0xF9 => some Instr.iF9
  | 0xE1 => some Instr.iE1
  | 0xF1 => some Instr.iF1
  | 0xC9 => some Instr.iC9
  | 0xC5 => some Instr.iC5
  | 0xD5 => some Instr.iD5
  | 0xCD => some Instr.iCD
  | 0xDD => some Instr.iDD
  | 0xD9 => some Instr.iD9
  | 0xC1 => some Instr.iC1
  | 0xD1 => some Instr.iD1
  | 0xE0 => some Instr.iE0
  | 0xE4 => some Instr.iE4
  | 0xEC => some Instr.iEC
  | 0xC0 => some Instr.iC0
  | 0xC4 => some Instr.iC4
  | 0xCC => some Instr.iCC
  | 0xF0 => some Instr.iF0
  | 0xD0 => some Instr.iD0
  | 0xB0 => some Instr.iB0
  | 0x90 => some Instr.i90
  | 0x70 => some Instr.i70
  | 0x50 => some Instr.i50
  | 0x30 => some Instr.i30
  | 0x10 => some Instr.i10
  | 0x40 => some Instr.i40
  | 0x48 => some Instr.i48
  | 0x08 => some Instr.i08
  | 0x68 => some Instr.i68
  | 0x28 => some Instr.i28
  | 0xAA => some Instr.iAA
  | 0xA8 => some Instr.iA8
  | 0x8A => some Instr.i8A
  | 0x98 => some Instr.i98
  | 0xBA => some Instr.iBA
  | 0x9A => some Instr.i9A
  | 0xE8 => some Instr.iE8
  | 0xC8 => some Instr.iC8
  | 0xCA => some Instr.iCA
  | 0x88 => some Instr.i88
  | 0xE6 => some Instr.iE6
  | 0xF6 => some Instr.iF6
  | 0xEE => some Instr.iEE
  | 0xFE => some Instr.iFE
  | 0xC6 => some Instr.iC6
  | 0xD6 => some Instr.iD6
  | 0xCE => some Instr.iCE
  | 0xDE => some Instr.iDE
  | 0x0A => some Instr.i0A
  | 0x06 => some Instr.i06
  | 0x16 => some Instr.i16
  | 0x0E => some Instr.i0E
  | 0x1E => some Instr.i1E
  | 0x4A => some Instr.i4A
  | 0x46 => some Instr.i46
  | 0x56 => some Instr.i56
  | 0x4E => some Instr.i4E
  | 0x5E => some Instr.i5E
  | 0x2A => some Instr.i2A
  | 0x26 => some Instr.i26
  | 0x36 => some Instr.i36
  | 0x2E => some Instr.i2E
  | 0x3E => some Instr.i3E
  | 0x6A => some Instr.i6A
  | 0x66 => some Instr.i66
  | 0x76 => some Instr.i76
  | 0x6E => some Instr.i6E
  | 0x7E => some Instr.i7E
  | 0x24 => some Instr.i24
  | 0x2C => some Instr.i2C
  | 0x18 => some Instr.i18
  | 0x38 => some Instr.i38
  | 0xB8 => some Instr.iB8
  | 0xD8 => some Instr.iD8
  | 0xF8 => some Instr.iF8
  | 0x20 => some Instr.i20
  | 0x60 => some Instr.i60
  | 0x6C => some Instr.i6C
  | _ => none

/-- The error surface of `CPU.step`: either the explicit
`Unimplemented opcode` throw (carrying the opcode byte and `this.PC - 1`,
computed on the already-incremented program counter), or a JavaScript-level
failure propagated from a memory access. -/
inductive EmuError where
  | unimplementedOpcode (opcode : Nat) (pc : Int)
  | mem (e : MemError)
deriving DecidableEq

namespace CPU

/-- `CPU.handleNMI`: push PC and P (with B cleared), set I, load the NMI
vector; 7 cycles. -/
def handleNMI (s : NES) : Except MemError (Nat × NES) :=
  let s := pushWord s (s.cpu.PC : Int)
  let s := pushByte s (s.cpu.SR &&& jsNot32 CpuFlags.Break)
  let s := { s with cpu := setFlag s.cpu CpuFlags.InterruptDisable true }
  match Memory.read s 0xFFFA with
  | .error e => .error e
  | .ok (lo, s) =>
    match Memory.read s 0xFFFB with
    | .error e => .error e
    | .ok (hi, s) => .ok (7, { s with cpu := { s.cpu with PC := lo ||| (hi <<< 8) } })

/-- `CPU.handleIRQ`: like NMI but with the IRQ vector. -/
def handleIRQ (s : NES) : Except MemError (Nat × NES) :=
  let s := pushWord s (s.cpu.PC : Int)
  let s := pushByte s (s.cpu.SR &&& jsNot32 CpuFlags.Break)
  let s := { s with cpu := setFlag s.cpu CpuFlags.InterruptDisable true }
  match Memory.read s 0xFFFE with
  | .error e => .error e
  | .ok (lo, s) =>
    match Memory.read s 0xFFFF with
    | .error e => .error e
    | .ok (hi, s) => .ok (7, { s with cpu := { s.cpu with PC := lo ||| (hi <<< 8) } })

/-- `CPU.handleInterrupts`: NMI first (always), then IRQ when I is clear;
returns 0 cycles when nothing is pending. -/
def handleInterrupts (s : NES) : Except MemError (Nat × NES) :=
  if s.cpu.pendingNMI then
    match handleNMI s with
    | .error e => .error e
    | .ok (cycles, s) => .ok (cycles, { s with cpu := { s.cpu with pendingNMI := false } })
  else if s.cpu.pendingIRQ && ! getFlag s.cpu CpuFlags.InterruptDisable then
    match handleIRQ s with
    | .error e => .error e
    | .ok (cycles, s) => .ok (cycles, { s with cpu := { s.cpu with pendingIRQ := false } })
  else .ok (0, s)

/-- `CPU.triggerNMI`. -/
def triggerNMI (s : NES) : NES :=
  { s with cpu := { s.cpu with pendingNMI := true } }

/-- `CPU.triggerIRQ`. -/
def triggerIRQ (s : NES) : NES :=
  { s with cpu := { s.cpu with pendingIRQ := true } }

/-- `CPU.step`: service pending interrupts, else fetch, decode through the
instruction table (throwing `Unimplemented opcode` with the byte and
`this.PC - 1` when absent), zero the per-step cycle counter, execute, add the
base cycles and return the counter. -/
def step (s : NES) : Except EmuError (Nat × NES) :=
  match handleInterrupts s with
  | .error e => .error (.mem e)
  | .ok (interruptCycles, s) =>
    if 0 < interruptCycles then .ok (interruptCycles, s)
    else
      match fetchByte s with
      | .error e => .error (.mem e)
      | .ok (opcode, s) =>
        match populateInstructions opcode with
        | none => .error (.unimplementedOpcode opcode ((s.cpu.PC : Int) - 1))
        | some instruction =>
          let s := { s with cpu := { s.cpu with cycles := 0 } }
          match instruction.execute s with
          | .error e => .error (.mem e)
          | .ok s =>
            let s := { s with cpu := { s.cpu with cycles := s.cpu.cycles + instruction.cycles } }
            .ok (s.cpu.cycles, s)

end CPU

namespace NesConsole

/-- Body of the fixed loop in `NesConsole.runFrame` (`console.ts`): one CPU
step whose returned cycle count is discarded, then exactly three PPU dots,
then the NMI edge check. -/
def runFrameBody (s : NES) : Except EmuError NES :=
  match CPU.step s with
  | .error e => .error e
  | .ok (_, s) =>
    let s := { s with ppu := PPU.step s.ppu s.cart }
    let s := { s with ppu := PPU.step s.ppu s.cart }
    let s := { s with ppu := PPU.step s.ppu s.cart }
    let (nmi, p) := PPU.checkNMI s.ppu
    let s := { s with ppu := p }
    if nmi ≠ 0 then .ok (CPU.triggerNMI s) else .ok s

/-- The fixed-count loop of `NesConsole.runFrame`. -/
def runFrameLoop : Nat → NES → Except EmuError NES
  | 0, s => .ok s
  | n + 1, s =>
    match runFrameBody s with
    | .error e => .error e
    | .ok s => runFrameLoop n s

/-- `NesConsole.runFrame`: `for (let i = 0; i < 29780; i++) { ... }` — the
iteration count is a constant; no PPU frame-boundary condition is consulted —
then `renderFrame`. -/
def runFrame (s : NES) : Except EmuError ((Nat → Nat) × NES) :=
  match runFrameLoop 29780 s with
  | .error e => .error e
  | .ok s => .ok (PPU.renderFrame s.ppu, s)

end NesConsole

namespace Clock

/-- Body of the loop in `Clock.stepFrame` (`clock.ts`): `this.cpu.step()`
alone — the PPU is never stepped in this revision. -/
def stepFrameBody (s : NES) : Except EmuError NES :=
  match CPU.step s with
  | .error e => .error e
  | .ok (_, s) => .ok s

/-- The fixed-count loop of `Clock.stepFrame` (29780 iterations). -/
def stepFrameLoop : Nat → NES → Except EmuError NES
  | 0, s => .ok s
  | n + 1, s =>
    match stepFrameBody s with
    | .error e => .error e
    | .ok s => stepFrameLoop n s

/-- `Clock.stepFrame`: 29780 bare CPU steps, then `renderFrame`. -/
def stepFrame (s : NES) : Except EmuError ((Nat → Nat) × NES) :=
  match stepFrameLoop 29780 s with
  | .error e => .error e
  | .ok s => .ok (PPU.renderFrame s.ppu, s)

end Clock

namespace MemoryPart005

/-- `Memory.mapPpuAddress` of the other `memory.ts` revision in the tree (the
one without a PPU reference): nametable mirroring is computed inline.  Note
its comments and groupings: Horizontal sends nametables 0,1 to one target and
2,3 to the other; Vertical sends 0,2 and 1,3 together. -/
def mapPpuAddressAux (cart : Cartridge) : Nat → Nat → Nat
  | 0, address => address
  | fuel + 1, address =>
    let address := address &&& 0x3FFF
    if address < 0x2000 then address
    else if address < 0x3000 then
      let nameTable := (address - 0x2000) >>> 10
      let offset := address &&& 0x3FF
      match cart.mirroring with
      | .Horizontal => 0x2000 + (if nameTable &&& 2 ≠ 0 then 0x800 else 0) + offset
      | .Vertical => 0x2000 + (if nameTable &&& 1 ≠ 0 then 0x800 else 0) + offset
      | .SingleScreenLow => 0x2000 + offset
      | .SingleScreenHigh => 0x2800 + offset
      | .FourScreen => address
    else if address < 0x3F00 then mapPpuAddressAux cart fuel (address - 0x1000)
    else 0x3F00 + (address &&& 0x1F)

/-- `Memory.mapPpuAddress` (part 005 revision); the single self-call needs
fuel 2, as for the live revision. -/
def mapPpuAddress (cart : Cartridge) (address : Nat) : Nat :=
  mapPpuAddressAux cart 2 address

end MemoryPart005

/-- Reference nametable mapping stated by the spec: which of the two physical
1 KiB banks each of the four logical nametables uses (0 = bank A, 1 = bank
B).  Horizontal: {0,1} to A, {2,3} to B; Vertical: {0,2} to A, {1,3} to B. -/
def refNametableBank (mode : MirroringMode) (nameTable : Nat) : Nat :=
  match mode with
  | .Horizontal => nameTable / 2
  | .Vertical => nameTable % 2
  | _ => 0

/-- Reference semantics stated by the spec for branch conditions: which flag
each branch opcode tests and with which polarity. -/
def branchTaken (op sr : Nat) : Bool :=
  if op = 0xF0 then (sr &&& 2) != 0
  else if op = 0xD0 then (sr &&& 2) == 0
  else if op = 0xB0 then (sr &&& 1) != 0
  else if op = 0x90 then (sr &&& 1) == 0
  else if op = 0x70 then (sr &&& 0x40) != 0
  else if op = 0x50 then (sr &&& 0x40) == 0
  else if op = 0x30 then (sr &&& 0x80) != 0
  else if op = 0x10 then (sr &&& 0x80) == 0
  else false

/-- A minimal NROM cartridge for concrete runs: no CHR banks (so CHR-RAM is
used), horizontal mirroring, as parsed from an all-defaults iNES header. -/
def testCart : Cartridge :=
  { prgBanks := [], chrBanks := [], prgRam := zeroFn, chrRam := zeroFn,
    mapper := 0, mirroring := .Horizontal }

/-- The same cartridge with vertical mirroring. -/
def vertCart : Cartridge := { testCart with mirroring := .Vertical }

/-- RAM holding the given bytes, every other cell zero. -/
def ramWith (l : List (Nat × Nat)) : Nat → Nat := fun a => (l.lookup a).getD 0

/-- CPU registers as the source's reset leaves them (SP = 0xFD, P = I|U),
with the program counter pointed at RAM address 0x0200. -/
def baseCpu : CPUState :=
  { A := 0, X := 0, Y := 0, PC := 0x0200, SP := 0xFD, SR := 0x24,
    cycles := 0, pendingNMI := false, pendingIRQ := false }

/-- The PPU state right after the source's `reset()`. -/
def ppuAfterReset : PPUState := PPU.reset PPU.initState

/-- A console state over `testCart` with the given RAM contents. -/
def baseNes (ram : Nat → Nat) : NES :=
  { cpu := baseCpu, ram := ram, apuRegisters := zeroFn,
    ppu := ppuAfterReset, cart := testCart }

/-- A NOP (0xEA) at 0x0200. -/
def nesNop : NES := baseNes (ramWith [(0x0200, 0xEA)])

/-- The bytes of `LDA $0123` (opcode 0xAD) at 0x0200. -/
def nesLdaAbs : NES :=
  baseNes (ramWith [(0x0200, 0xAD), (0x0201, 0x23), (0x0202, 0x01)])

/-- The unimplemented opcode byte 0x02 at 0x0200. -/
def nesBadOpcode : NES := baseNes (ramWith [(0x0200, 0x02)])

/-- `BEQ +0x10` at 0x02FD with the Zero flag set: the branch is taken and the
target 0x030F sits on a different page than the fall-through address
0x02FF. -/
def nesBeq : NES :=
  { baseNes (ramWith [(0x02FD, 0xF0), (0x02FE, 0x10)]) with
      cpu := { baseCpu with PC := 0x02FD, SR := 0x26 } }

/-- The reset PPU at dot 257 of visible scanline 0: the dot at which `step`
runs sprite evaluation.  The zero-filled `oamMemory` describes 64 sprites
with y = 0, all of which cover scanline 0. -/
def ppuSpriteEval : PPUState := { ppuAfterReset with cycle := 257 }

/-- The reset PPU with NMI generation disabled (PPUCTRL written with 0x00),
moved to scanline 241, dot 1 — the dot at which VBlank begins. -/
def ppuVBlankStart : PPUState :=
  { PPU.writeControl ppuAfterReset 0x00 with scanline := 241, cycle := 1 }

/-- The reset PPU after PPUADDR was written twice (0x3F then 0x00), leaving
the VRAM address v at the palette address 0x3F00. -/
def ppuAtPalette : PPUState :=
  PPU.writeAddress (PPU.writeAddress ppuAfterReset 0x3F) 0x00

/-- VBlank begun with NMI disabled, then PPUCTRL written with 0x80
(NMI-enable 0 to 1 while the VBlank flag is set). -/
def ppuAfterVBlankCtrlWrite : PPUState :=
  PPU.writeControl (PPU.step ppuVBlankStart testCart) 0x80

/-- The reset PPU after the value 0xAA was stored through palette address
0x3F10. -/
def ppuPaletteWrite10 : PPUState :=
  PPU.writeVRAM ppuAfterReset testCart 0x3F10 0xAA

/-- How many OAM entries cover the current scanline, per the in-range test of
sprite evaluation (`0 ≤ scanline - y < spriteHeight`). -/
def inRangeSpriteCount (p : PPUState) (spriteHeight : Nat) : Nat :=
  ((List.range 64).filter (fun i =>
    decide (0 ≤ (p.scanline : Int) - p.oamMemory (i * 4) ∧
            (p.scanline : Int) - p.oamMemory (i * 4) < spriteHeight))).length

/-- The CPU register file of the `nesBeq` fixture. -/
def beqCpu : CPUState := { baseCpu with PC := 0x02FD, SR := 0x26 }

/-- `nesBeq` after the opcode fetch. -/
def nesBeqS1 : NES := { nesBeq with cpu := { beqCpu with PC := 0x02FE } }

/-- `nesBeq` after the opcode fetch, cycle reset and offset fetch. -/
def nesBeqS2 : NES := { nesBeq with cpu := { beqCpu with PC := 0x02FF, cycles := 0 } }

/-- `nesBadOpcode` after the opcode fetch. -/
def nesBadOpcodeS1 : NES := { nesBadOpcode with cpu := { baseCpu with PC := 0x0201 } }

/-! ## Supporting lemmas -/

/-- With no pending NMI, and the IRQ either absent or masked,
`handleInterrupts` consumes no cycles and leaves the state unchanged. -/
theorem handleInterrupts_idle (s : NES)
    (hn : s.cpu.pendingNMI = false)
    (hi : s.cpu.pendingIRQ = false ∨ CPU.getFlag s.cpu CpuFlags.InterruptDisable = true) :
    CPU.handleInterrupts s = .ok (0, s) := by
  unfold CPU.handleInterrupts
  rw [hn]
  rcases hi with hi | hi <;> simp [hi]

/-- A successful memory read never changes the CPU register file. -/
theorem Memory.read_cpu {s s2 : NES} {a v : Nat}
    (h : Memory.read s a = .ok (v, s2)) : s2.cpu = s.cpu := by
  simp only [Memory.read] at h
  repeat' split at h
  all_goals cases h
  all_goals rfl

/-- A successful `fetchByte` bumps `PC` and leaves the other registers be. -/
theorem CPU.fetchByte_ok {s s2 : NES} {v : Nat}
    (h : CPU.fetchByte s = .ok (v, s2)) :
    s2.cpu = { s.cpu with PC := (s.cpu.PC + 1) &&& 0xFFFF } := by
  unfold CPU.fetchByte at h
  split at h
  · cases h
  · rename_i value sr heq
    cases h
    have := Memory.read_cpu heq
    simp [this]

/-- A successful read at 0xFFFF always yields 0: with mapper 0 the source
either indexes a missing bank (1 PRG bank) or reads past the end of bank 1
(2 or more banks), while other mappers fall through to `return 0`. -/
theorem Memory.read_FFFF {s s2 : NES} {v : Nat}
    (h : Memory.read s 0xFFFF = .ok (v, s2)) : v = 0 := by
  unfold Memory.read Cartridge.readPrg at h
  norm_num at h
  rcases hm : s.cart.mapper with _ | m
  · rw [hm] at h
    rcases hb : s.cart.prgBanks with _ | ⟨b0, _ | ⟨b1, t⟩⟩ <;>
      simp [hb, List.get?] at h
  · rw [hm] at h
    simp at h
    exact h.1.symm

/-! ## C1: the frame loop does not advance the PPU three dots per CPU cycle -/

/-- C1, code_bug.  The claim says `run_frame` loops until the PPU reports a
frame boundary and steps the PPU `3*n` times for an instruction that took `n`
cycles.  In the code (`NesConsole.runFrame`) the loop is a fixed 29780
iterations and the PPU is stepped exactly 3 dots per iteration no matter what
`cpu.step()` returned: from reset with a NOP (which `step` reports as 2
cycles) one iteration advances the PPU by 3 dots, not 6.  The clock.ts
variant (`Clock.stepFrame`) never steps the PPU at all. -/
theorem runFrame_ppu_ratio_bug :
    Except.map Prod.fst (CPU.step nesNop) = .ok 2 ∧
    Except.map (fun s => s.ppu.cycle) (NesConsole.runFrameBody nesNop) = .ok 3 ∧
    nesNop.ppu.cycle = 0 ∧
    Except.map (fun s => s.ppu.cycle) (Clock.stepFrameBody nesNop) = .ok 0 ∧
    3 ≠ 3 * 2 :=
  ⟨rfl, rfl, rfl, rfl, by decide⟩

/-! ## C2: the 8-bit register invariant is broken by the LDA entries -/

/-- C2, code_bug.  The claim says A, X and Y always hold 8-bit values after a
step, in particular for every LDA variant.  The LDA absolute entry (0xAD)
assigns the 16-bit operand address itself to `A`: executing `LDA $0123`
leaves `A = 0x0123 = 291 > 255`. -/
theorem lda_absolute_breaks_8bit_registers :
    Except.map (fun r => r.2.cpu.A) (CPU.step nesLdaAbs) = .ok 0x0123 ∧
    ¬ (0x0123 : Nat) ≤ 0xFF :=
  ⟨rfl, by decide⟩

/-! ## C3: a ninth in-range sprite never sets the overflow bit -/

/-- C3, code_bug.  With the zero-filled OAM all 64 sprites cover scanline 0,
so far more than nine are in range; the claim requires PPUSTATUS bit 5 to be
set.  But `evaluateSprites`' loop guard `i < 64 && n < 8` exits as soon as
eight sprites are copied, so the `n > 8` test that would set the bit is
unreachable: after the dot-257 step the eighth sprite is stored
(`spriteCount = 8`) and the overflow bit is still 0. -/
theorem sprite_overflow_never_set_bug :
    inRangeSpriteCount ppuSpriteEval 8 = 64 ∧
    9 ≤ inRangeSpriteCount ppuSpriteEval 8 ∧
    (PPU.step ppuSpriteEval testCart).spriteCount = 8 ∧
    (PPU.step ppuSpriteEval testCart).status &&& 0x20 = 0 :=
  ⟨by decide, by decide, rfl, rfl⟩

/-! ## C4: PPUDATA reads
The claim (buffered reads with a palette exception) fails on both code
paths: `readRegister` buffers every read, palette included, and the live
`readData` buffers nothing. -/

/-- C4, counterexample.  With v at palette address 0x3F00 (reached through
two PPUADDR writes from reset) the palette cell holds 0x0F, yet the
`readRegister` PPUDATA path returns the stale buffer 0x00 instead of the
palette value the claim promises. -/
theorem ppudata_palette_read_counterexample :
    ppuAtPalette.v = 0x3F00 ∧
    (PPU.readRegister ppuAtPalette testCart 0x2007).1 = 0 ∧
    PPU.readVRAM ppuAtPalette testCart 0x3F00 = 0x0F ∧
    (0 : Nat) ≠ 0x0F :=
  ⟨rfl, rfl, rfl, by decide⟩

/-- C4, amended.  For every PPU state and cartridge: the `readRegister`
PPUDATA path returns the previously buffered byte and refills the buffer
from v uniformly — palette addresses included, with no immediate-read
exception — while the live `readData` path returns the byte at v directly
with no buffer at all; after either read, v is incremented by 32 when
PPUCTRL bit 2 is set and by 1 otherwise. -/
theorem ppudata_read_amended (p : PPUState) (cart : Cartridge) :
    (PPU.readRegister p cart 0x2007).1 = p.data ∧
    (PPU.readRegister p cart 0x2007).2.data = PPU.readVRAM p cart p.v ∧
    (PPU.readRegister p cart 0x2007).2.v =
      p.v + (if p.ctrl &&& 0x04 ≠ 0 then 32 else 1) ∧
    (PPU.readData p cart).1 = PPU.readVRAM p cart p.v ∧
    (PPU.readData p cart).2.v = p.v + (if p.ctrl &&& 0x04 ≠ 0 then 32 else 1) :=
  ⟨rfl, rfl, rfl, rfl, rfl⟩

/-! ## C5: a PPUCTRL write does not produce an NMI edge -/

/-- C5, code_bug.  VBlank begins at scanline 241 dot 1 with NMI disabled, so
the VBlank flag is set but no edge is latched.  The claim says a PPUCTRL
write that turns NMI-enable from 0 to 1 while the VBlank flag is set
produces an NMI edge for the clock to forward.  In `writeControl` the saved
`prevNMI` is never used: `nmiOccurred` stays 0 and `checkNMI` reports
nothing to forward. -/
theorem writeControl_no_nmi_edge_bug :
    (PPU.step ppuVBlankStart testCart).status &&& 0x80 = 0x80 ∧
    (PPU.step ppuVBlankStart testCart).nmiEnabled = 0 ∧
    (PPU.step ppuVBlankStart testCart).nmiOccurred = 0 ∧
    ppuAfterVBlankCtrlWrite.nmiEnabled = 1 ∧
    ppuAfterVBlankCtrlWrite.status &&& 0x80 = 0x80 ∧
    (PPU.checkNMI ppuAfterVBlankCtrlWrite).1 = 0 :=
  ⟨rfl, rfl, rfl, rfl, rfl, rfl⟩

/-! ## C6: palette 0x10/0x00 are distinct cells, mirrored only mod 32 -/

/-- C6, counterexample.  Writing 0xAA through palette address 0x3F10 is read
back through 0x3F10 but not through 0x3F00 (which still holds the reset
value 0x0F): 0x10 is not a mirror of 0x00 in this code. -/
theorem palette_mirror_pair_counterexample :
    PPU.readVRAM ppuPaletteWrite10 testCart 0x3F10 = 0xAA ∧
    PPU.readVRAM ppuPaletteWrite10 testCart 0x3F00 = 0x0F ∧
    (0x0F : Nat) ≠ 0xAA :=
  ⟨rfl, rfl, by decide⟩

/-- Palette addresses map to `0x3F00 | (address & 0x1F)`. -/
theorem mapPpuAddress_palette (cart : Cartridge) (a : Nat)
    (h1 : 0x3F00 ≤ a) (h2 : a ≤ 0x3FFF) :
    Memory.mapPpuAddress cart a = 0x3F00 ||| (a &&& 0x1F) := by
  have haeq : a &&& 0x3FFF = a := by
    rw [show (0x3FFF : Nat) = 2 ^ 14 - 1 from rfl, Nat.and_pow_two_sub_one_eq_mod]
    omega
  unfold Memory.mapPpuAddress mapPpuAddressAux
  rw [haeq, if_neg (by omega), if_neg (by omega), if_neg (by omega)]

/-- C6, amended.  Palette RAM accesses reduce the address modulo 32 — every
pair of palette addresses congruent mod 32 aliases the same cell — but
0x10/0x14/0x18/0x1C remain distinct from 0x00/0x04/0x08/0x0C: a value
written through one palette address is read back exactly through the
addresses whose low five bits agree. -/
theorem palette_mirror_mod32 (p : PPUState) (cart : Cartridge) (a b value : Nat)
    (ha1 : 0x3F00 ≤ a) (ha2 : a ≤ 0x3FFF)
    (hb1 : 0x3F00 ≤ b) (hb2 : b ≤ 0x3FFF)
    (hab : a &&& 0x1F = b &&& 0x1F) :
    PPU.readVRAM (PPU.writeVRAM p cart a value) cart b = value := by
  have hcore : ∀ k, k < 32 →
      (0x3F00 ||| k) &&& 0x1F = k ∧ 0x3F00 ≤ (0x3F00 ||| k) ∧ (0x3F00 ||| k) < 0x4000 ∧
      ¬ (0x3F00 ||| k) < 0x2000 ∧ ¬ (0x3F00 ||| k) < 0x3F00 := by decide
  have hka := hcore (a &&& 0x1F) (Nat.lt_succ_of_le Nat.and_le_right)
  have hkb := hcore (b &&& 0x1F) (Nat.lt_succ_of_le Nat.and_le_right)
  unfold PPU.readVRAM PPU.writeVRAM
  rw [mapPpuAddress_palette cart a ha1 ha2, mapPpuAddress_palette cart b hb1 hb2]
  rw [if_neg hkb.2.2.2.1, if_neg hkb.2.2.2.2, if_pos ⟨hka.2.1, hka.2.2.1⟩]
  simp only [hka.1, hkb.1, updateFn, hab]
  simp

/-- Witness for the amended C6 statement: 0x3F05 and 0x3F25 alias. -/
theorem palette_mirror_mod32_witness :
    PPU.readVRAM (PPU.writeVRAM ppuAfterReset testCart 0x3F05 0x2A) testCart 0x3F25 = 0x2A :=
  palette_mirror_mod32 ppuAfterReset testCart 0x3F05 0x3F25 0x2A
    (by decide) (by decide) (by decide) (by decide) (by decide)

/-! ## C7: the cartridge's Horizontal arm implements vertical mirroring -/

/-- Closed form of the part-005 `mapPpuAddress` on the nametable range. -/
theorem mapPpuAddress005_nametable (cart : Cartridge) (a : Nat) (ha : a < 0x1000) :
    MemoryPart005.mapPpuAddress cart (0x2000 + a) =
      (match cart.mirroring with
       | .Horizontal => 0x2000 + (if (a / 0x400) &&& 2 ≠ 0 then 0x800 else 0) + a % 0x400
       | .Vertical => 0x2000 + (if (a / 0x400) &&& 1 ≠ 0 then 0x800 else 0) + a % 0x400
       | .SingleScreenLow => 0x2000 + a % 0x400
       | .SingleScreenHigh => 0x2800 + a % 0x400
       | .FourScreen => 0x2000 + a) := by
  have hmask : (0x2000 + a) &&& 0x3FFF = 0x2000 + a := by
    rw [show (0x3FFF : Nat) = 2 ^ 14 - 1 from rfl, Nat.and_pow_two_sub_one_eq_mod]
    omega
  have hoff : (0x2000 + a) &&& 0x3FF = a % 0x400 := by
    rw [show (0x3FF : Nat) = 2 ^ 10 - 1 from rfl, Nat.and_pow_two_sub_one_eq_mod]
    omega
  have hnt : (0x2000 + a - 0x2000) >>> 10 = a / 0x400 := by
    rw [Nat.shiftRight_eq_div_pow]
    omega
  unfold MemoryPart005.mapPpuAddress MemoryPart005.mapPpuAddressAux
  rw [hmask, if_neg (by omega), if_pos (by omega), hnt, hoff]

/-- `Cartridge.mirrorVramAddress` behaves identically under Horizontal and
Vertical mirroring on the whole nametable range: the Horizontal arm is a
copy of the Vertical computation. -/
theorem mirrorVramAddress_horizontal_eq_vertical (a : Nat) (ha : a < 0x1000) :
    Cartridge.mirrorVramAddress vertCart (0x2000 + a) =
      Cartridge.mirrorVramAddress testCart (0x2000 + a) := by
  have hmask : (0x2000 + a - 0x2000) &&& 0x0FFF = a := by
    rw [show (0x0FFF : Nat) = 2 ^ 12 - 1 from rfl, Nat.and_pow_two_sub_one_eq_mod]
    omega
  unfold Cartridge.mirrorVramAddress
  show (match vertCart.mirroring with
        | _ => _ : Nat) = _
  simp only [vertCart, testCart, hmask]
  by_cases h8 : 0x800 ≤ a
  · rw [if_pos h8, if_pos ⟨h8, by omega⟩]
  · rw [if_neg h8, if_neg (by omega)]

/-- C7, code_bug.  Under Horizontal mirroring the claim (and the code's own
comment, and the sibling `memory.ts` revision) put nametables {0,1} in bank A
and {2,3} in bank B.  The live `Cartridge.mirrorVramAddress` instead keeps
NT1 (0x2400) in the second bank and folds NT2 (0x2800) onto the first —
behaving exactly like its Vertical arm on the whole range — while the
part-005 `Memory.mapPpuAddress` groups all four nametables per the reference
table for both modes. -/
theorem nametable_horizontal_mirroring_bug :
    Cartridge.mirrorVramAddress testCart 0x2400 = 0x2400 ∧
    Cartridge.mirrorVramAddress testCart 0x2800 = 0x2000 ∧
    Cartridge.mirrorVramAddress testCart 0x2400 ≠ Cartridge.mirrorVramAddress testCart 0x2000 ∧
    Cartridge.mirrorVramAddress testCart 0x2800 = Cartridge.mirrorVramAddress testCart 0x2000 ∧
    refNametableBank .Horizontal 1 = 0 ∧
    refNametableBank .Horizontal 2 = 1 ∧
    (∀ a, a < 0x1000 →
      (MemoryPart005.mapPpuAddress testCart (0x2000 + a) - 0x2000) / 0x800 =
        refNametableBank .Horizontal (a / 0x400)) ∧
    (∀ a, a < 0x1000 →
      (MemoryPart005.mapPpuAddress vertCart (0x2000 + a) - 0x2000) / 0x800 =
        refNametableBank .Vertical (a / 0x400)) ∧
    (∀ a, a < 0x1000 →
      Cartridge.mirrorVramAddress vertCart (0x2000 + a) =
        Cartridge.mirrorVramAddress testCart (0x2000 + a)) := by
  refine ⟨rfl, rfl, by decide, by decide, rfl, rfl, ?_, ?_, ?_⟩
  · intro a ha
    rw [mapPpuAddress005_nametable testCart a ha]
    simp only [testCart, refNametableBank]
    have h4 : a / 0x400 = 0 ∨ a / 0x400 = 1 ∨ a / 0x400 = 2 ∨ a / 0x400 = 3 := by omega
    have hr : a % 0x400 < 0x400 := by omega
    rcases h4 with h | h | h | h <;> rw [h] <;>
      first
        | (rw [if_neg (by decide)]; omega)
        | (rw [if_pos (by decide)]; omega)
  · intro a ha
    rw [mapPpuAddress005_nametable vertCart a ha]
    simp only [vertCart, testCart, refNametableBank]
    have h4 : a / 0x400 = 0 ∨ a / 0x400 = 1 ∨ a / 0x400 = 2 ∨ a / 0x400 = 3 := by omega
    have hr : a % 0x400 < 0x400 := by omega
    rcases h4 with h | h | h | h <;> rw [h] <;>
      first
        | (rw [if_neg (by decide)]; omega)
        | (rw [if_pos (by decide)]; omega)
  · intro a ha
    exact mirrorVramAddress_horizontal_eq_vertical a ha

/-! ## C8: ADC carry and overflow flags -/

/-- `setFlag` only rewrites the status byte, via `setFlagNat`. -/
theorem CPU.setFlag_SR (c : CPUState) (f : Nat) (b : Bool) :
    (CPU.setFlag c f b).SR = setFlagNat c.SR f b := by
  cases b <;> rfl

/-- `setFlag` leaves the accumulator alone. -/
theorem CPU.setFlag_A (c : CPUState) (f : Nat) (b : Bool) :
    (CPU.setFlag c f b).A = c.A := by
  cases b <;> rfl

/-- The accumulator after `add` is the 8-bit truncated sum. -/
theorem CPU.add_A (c : CPUState) (value : Nat) :
    (CPU.add c value).A =
      (c.A + value + (if CPU.getFlag c CpuFlags.Carry then 1 else 0)) &&& 0xFF := by
  unfold CPU.add CPU.updateZeroNegativeFlags
  simp only [CPU.setFlag_A]

/-- The status byte after `add` is the C, V, Z, N chain applied to the old
status byte. -/
theorem CPU.add_SR (c : CPUState) (value : Nat) :
    (CPU.add c value).SR =
      setFlagNat (setFlagNat (setFlagNat (setFlagNat c.SR 1
        (decide (0xFF < c.A + value + (if CPU.getFlag c CpuFlags.Carry then 1 else 0))))
        64 ((jsNot32 (c.A ^^^ value) &&&
             (c.A ^^^ (c.A + value + (if CPU.getFlag c CpuFlags.Carry then 1 else 0))) &&&
             0x80) != 0))
        2 (((c.A + value + (if CPU.getFlag c CpuFlags.Carry then 1 else 0)) &&& 0xFF) == 0))
        128 ((((c.A + value + (if CPU.getFlag c CpuFlags.Carry then 1 else 0)) &&& 0xFF) &&& 0x80) != 0) := by
  unfold CPU.add CPU.updateZeroNegativeFlags
  simp only [CPU.setFlag_SR, CPU.setFlag_A, CpuFlags.Carry, CpuFlags.Overflow,
    CpuFlags.Zero, CpuFlags.Negative]

/-- The C and V bits of the C, V, Z, N `setFlagNat` chain. -/
theorem flag_chain_core :
    ∀ sr, sr < 256 → ∀ (bC bV bZ bN : Bool),
      ((setFlagNat (setFlagNat (setFlagNat (setFlagNat sr 1 bC) 64 bV) 2 bZ) 128 bN &&& 1 != 0) = bC ∧
       (setFlagNat (setFlagNat (setFlagNat (setFlagNat sr 1 bC) 64 bV) 2 bZ) 128 bN &&& 64 != 0) = bV) := by
  decide

/-- Bit 7 of the JS 32-bit NOT of a byte is the negated bit 7. -/
theorem jsNot32_testBit7 : ∀ y, y < 256 → Nat.testBit (jsNot32 y) 7 = ! Nat.testBit y 7 := by
  decide

/-- Testing `& 0x80` reads bit 7. -/
theorem and_0x80_ne_zero (x : Nat) : x &&& 0x80 ≠ 0 ↔ Nat.testBit x 7 = true := by
  rw [show (0x80 : Nat) = 2 ^ 7 from rfl, Nat.and_two_pow]
  cases h : Nat.testBit x 7 <;> simp

/-- Testing `(x >>> 7) &&& 1 = 1` also reads bit 7. -/
theorem shiftRight7_and1 (x : Nat) : (x >>> 7) &&& 1 = 1 ↔ Nat.testBit x 7 = true := by
  rw [Nat.and_one_is_mod, Nat.testBit_to_div_mod, Nat.shiftRight_eq_div_pow]
  simp

/-- The source's ADC overflow test agrees with the spec's byte-level formula
`((~(A^M)) & (A^A')) >> 7 & 1`. -/
theorem adc_overflow_core (a m c : Nat) (ha : a < 256) (hm : m < 256) :
    (jsNot32 (a ^^^ m) &&& (a ^^^ (a + m + c)) &&& 0x80 ≠ 0 ↔
      ((((a ^^^ m) ^^^ 0xFF) &&& (a ^^^ ((a + m + c) &&& 0xFF))) >>> 7) &&& 1 = 1) := by
  have hx : a ^^^ m < 256 := Nat.xor_lt_two_pow (n := 8) ha hm
  rw [and_0x80_ne_zero, shiftRight7_and1]
  simp only [Nat.testBit_and, Nat.testBit_xor]
  rw [jsNot32_testBit7 _ hx]
  simp only [Nat.testBit_xor, show Nat.testBit 0xFF 7 = true from rfl]
  cases hb1 : Nat.testBit a 7 <;> cases hb2 : Nat.testBit m 7 <;>
    cases hb3 : Nat.testBit (a + m + c) 7 <;> simp [hb1, hb2, hb3]

/-- C8, confirmed.  For every ADC core call `add` with a byte accumulator,
byte operand and byte status: the carry flag afterwards is set exactly when
`A + M + C_in > 0xFF`, and the overflow flag afterwards equals the spec's
formula `((~(A^M)) & (A^A')) >> 7 & 1` computed on the 8-bit result A'. -/
theorem adc_carry_overflow_flags (c : CPUState) (value : Nat)
    (hA : c.A < 256) (hv : value < 256) (hSR : c.SR < 256) :
    (CPU.getFlag (CPU.add c value) CpuFlags.Carry =
       decide (0xFF < c.A + value + (if CPU.getFlag c CpuFlags.Carry then 1 else 0))) ∧
    (CPU.getFlag (CPU.add c value) CpuFlags.Overflow = true ↔
       ((((c.A ^^^ value) ^^^ 0xFF) &&& (c.A ^^^ (CPU.add c value).A)) >>> 7) &&& 1 = 1) := by
  have hchain := flag_chain_core c.SR hSR
    (decide (0xFF < c.A + value + (if CPU.getFlag c CpuFlags.Carry then 1 else 0)))
    ((jsNot32 (c.A ^^^ value) &&&
      (c.A ^^^ (c.A + value + (if CPU.getFlag c CpuFlags.Carry then 1 else 0))) &&&
      0x80) != 0)
    (((c.A + value + (if CPU.getFlag c CpuFlags.Carry then 1 else 0)) &&& 0xFF) == 0)
    ((((c.A + value + (if CPU.getFlag c CpuFlags.Carry then 1 else 0)) &&& 0xFF) &&& 0x80) != 0)
  constructor
  · show ((CPU.add c value).SR &&& 1 != 0) = _
    rw [CPU.add_SR]
    exact hchain.1
  · have hov : CPU.getFlag (CPU.add c value) CpuFlags.Overflow =
        ((jsNot32 (c.A ^^^ value) &&&
          (c.A ^^^ (c.A + value + (if CPU.getFlag c CpuFlags.Carry then 1 else 0))) &&&
          0x80) != 0) := by
      show ((CPU.add c value).SR &&& 64 != 0) = _
      rw [CPU.add_SR]
      exact hchain.2
    rw [hov, CPU.add_A]
    rw [bne_iff_ne]
    exact adc_overflow_core c.A value
      (if CPU.getFlag c CpuFlags.Carry then 1 else 0) hA hv

/-- Witness for C8 at A = 0x50, M = 0x50, carry clear: signed overflow, no
carry out. -/
theorem adc_carry_overflow_flags_witness :
    CPU.getFlag (CPU.add { baseCpu with A := 0x50 } 0x50) CpuFlags.Overflow = true ∧
    CPU.getFlag (CPU.add { baseCpu with A := 0x50 } 0x50) CpuFlags.Carry = false := by
  have h := adc_carry_overflow_flags { baseCpu with A := 0x50 } 0x50
    (by decide) (by decide) (by decide)
  exact ⟨h.2.mpr (by decide), by rw [h.1]; decide⟩

/-! ## C9: branch instruction cycle accounting -/

/-- C9, confirmed.  For every branch opcode
(BEQ/BNE/BCS/BCC/BVS/BVC/BMI/BPL), from any machine state with no pending
interrupt in which the opcode and its offset byte are fetched successfully,
`step` returns base 2 cycles, plus 1 when the branch is taken (per the
reference flag table `branchTaken`), plus 1 more when the branch target lies
on a different 256-byte page than the next instruction's address (which is
`s2.cpu.PC`, the program counter after the offset fetch). -/
theorem branch_cycle_cost (s s1 s2 : NES) (op off : Nat)
    (hop : op = 0xF0 ∨ op = 0xD0 ∨ op = 0xB0 ∨ op = 0x90 ∨
           op = 0x70 ∨ op = 0x50 ∨ op = 0x30 ∨ op = 0x10)
    (hn : s.cpu.pendingNMI = false)
    (hi : s.cpu.pendingIRQ = false ∨ CPU.getFlag s.cpu CpuFlags.InterruptDisable = true)
    (h1 : CPU.fetchByte s = .ok (op, s1))
    (h2 : CPU.fetchByte { s1 with cpu := { s1.cpu with cycles := 0 } } = .ok (off, s2)) :
    ∃ sF, CPU.step s = .ok (2 +
      (if branchTaken op s.cpu.SR then
         (if (s2.cpu.PC &&& 0xFF00) ≠
             (jsAnd16 ((s2.cpu.PC : Int) + ((((off ^^^ 0x80 : Nat)) : Int) - 0x80)) &&& 0xFF00)
          then 2 else 1)
       else 0), sF) := by
  have hcpu1 := CPU.fetchByte_ok h1
  have hcpu2 := CPU.fetchByte_ok h2
  have hSR2 : s2.cpu.SR = s.cpu.SR := by rw [hcpu2, hcpu1]
  have hcy2 : s2.cpu.cycles = 0 := by rw [hcpu2]
  unfold CPU.step
  rw [handleInterrupts_idle s hn hi]
  dsimp only
  rw [if_neg (Nat.lt_irrefl 0), h1]
  dsimp only
  rcases hop with rfl | rfl | rfl | rfl | rfl | rfl | rfl | rfl
  · rw [show populateInstructions 0xF0 = some Instr.iF0 from rfl]
    rw [show branchTaken 0xF0 s.cpu.SR = ((s.cpu.SR &&& 2) != 0) from rfl]
    simp only [Instr.iF0]
    rw [h2]
    simp only [CPU.getFlag, CpuFlags.Zero, CpuFlags.Carry, CpuFlags.Overflow,
      CpuFlags.Negative, hSR2, bne_iff_ne, beq_iff_eq, ne_eq, Decidable.not_not]
    by_cases hT : s.cpu.SR &&& 2 = 0
    · simp only [if_neg (not_not_intro hT)]
      rw [hcy2]
      exact ⟨_, rfl⟩
    · by_cases hP : s2.cpu.PC &&& 0xFF00 =
        jsAnd16 ((s2.cpu.PC : Int) + ((((off ^^^ 0x80 : Nat)) : Int) - 0x80)) &&& 0xFF00
      · simp only [if_pos hT, if_neg (not_not_intro hP)]
        rw [hcy2]
        exact ⟨_, rfl⟩
      · simp only [if_pos hT, if_pos hP]
        rw [hcy2]
        exact ⟨_, rfl⟩
  · rw [show populateInstructions 0xD0 = some Instr.iD0 from rfl]
    rw [show branchTaken 0xD0 s.cpu.SR = ((s.cpu.SR &&& 2) == 0) from rfl]
    simp only [Instr.iD0]
    rw [h2]
    simp only [CPU.getFlag, CpuFlags.Zero, CpuFlags.Carry, CpuFlags.Overflow,
      CpuFlags.Negative, hSR2, bne_iff_ne, beq_iff_eq, ne_eq, Decidable.not_not]
    by_cases hT : s.cpu.SR &&& 2 = 0
    · by_cases hP : s2.cpu.PC &&& 0xFF00 =
        jsAnd16 ((s2.cpu.PC : Int) + ((((off ^^^ 0x80 : Nat)) : Int) - 0x80)) &&& 0xFF00
      · simp only [if_pos hT, if_neg (not_not_intro hP)]
        rw [hcy2]
        exact ⟨_, rfl⟩
      · simp only [if_pos hT, if_pos hP]
        rw [hcy2]
        exact ⟨_, rfl⟩
    · simp only [if_neg hT]
      rw [hcy2]
      exact ⟨_, rfl⟩
  · rw [show populateInstructions 0xB0 = some Instr.iB0 from rfl]
    rw [show branchTaken 0xB0 s.cpu.SR = ((s.cpu.SR &&& 1) != 0) from rfl]
    simp only [Instr.iB0]
    rw [h2]
    simp only [CPU.getFlag, CpuFlags.Zero, CpuFlags.Carry, CpuFlags.Overflow,
      CpuFlags.Negative, hSR2, bne_iff_ne, beq_iff_eq, ne_eq, Decidable.not_not]
    by_cases hT : s.cpu.SR &&& 1 = 0
    · simp only [if_neg (not_not_intro hT)]
      rw [hcy2]
      exact ⟨_, rfl⟩
    · by_cases hP : s2.cpu.PC &&& 0xFF00 =
        jsAnd16 ((s2.cpu.PC : Int) + ((((off ^^^ 0x80 : Nat)) : Int) - 0x80)) &&& 0xFF00
      · simp only [if_pos hT, if_neg (not_not_intro hP)]
        rw [hcy2]
        exact ⟨_, rfl⟩
      · simp only [if_pos hT, if_pos hP]
        rw [hcy2]
        exact ⟨_, rfl⟩
  · rw [show populateInstructions 0x90 = some Instr.i90 from rfl]
    rw [show branchTaken 0x90 s.cpu.SR = ((s.cpu.SR &&& 1) == 0) from rfl]
    simp only [Instr.i90]
    rw [h2]
    simp only [CPU.getFlag, CpuFlags.Zero, CpuFlags.Carry, CpuFlags.Overflow,
      CpuFlags.Negative, hSR2, bne_iff_ne, beq_iff_eq, ne_eq, Decidable.not_not]
    by_cases hT : s.cpu.SR &&& 1 = 0
    · by_cases hP : s2.cpu.PC &&& 0xFF00 =
        jsAnd16 ((s2.cpu.PC : Int) + ((((off ^^^ 0x80 : Nat)) : Int) - 0x80)) &&& 0xFF00
      · simp only [if_pos hT, if_neg (not_not_intro hP)]
        rw [hcy2]
        exact ⟨_, rfl⟩
      · simp only [if_pos hT, if_pos hP]
        rw [hcy2]
        exact ⟨_, rfl⟩
    · simp only [if_neg hT]
      rw [hcy2]
      exact ⟨_, rfl⟩
  · rw [show populateInstructions 0x70 = some Instr.i70 from rfl]
    rw [show branchTaken 0x70 s.cpu.SR = ((s.cpu.SR &&& 0x40) != 0) from rfl]
    simp only [Instr.i70]
    rw [h2]
    simp only [CPU.getFlag, CpuFlags.Zero, CpuFlags.Carry, CpuFlags.Overflow,
      CpuFlags.Negative, hSR2, bne_iff_ne, beq_iff_eq, ne_eq, Decidable.not_not]
    by_cases hT : s.cpu.SR &&& 0x40 = 0
    · simp only [if_neg (not_not_intro hT)]
      rw [hcy2]
      exact ⟨_, rfl⟩
    · by_cases hP : s2.cpu.PC &&& 0xFF00 =
        jsAnd16 ((s2.cpu.PC : Int) + ((((off ^^^ 0x80 : Nat)) : Int) - 0x80)) &&& 0xFF00
      · simp only [if_pos hT, if_neg (not_not_intro hP)]
        rw [hcy2]
        exact ⟨_, rfl⟩
      · simp only [if_pos hT, if_pos hP]
        rw [hcy2]
        exact ⟨_, rfl⟩
  · rw [show populateInstructions 0x50 = some Instr.i50 from rfl]
    rw [show branchTaken 0x50 s.cpu.SR = ((s.cpu.SR &&& 0x40) == 0) from rfl]
    simp only [Instr.i50]
    rw [h2]
    simp only [CPU.getFlag, CpuFlags.Zero, CpuFlags.Carry, CpuFlags.Overflow,
      CpuFlags.Negative, hSR2, bne_iff_ne, beq_iff_eq, ne_eq, Decidable.not_not]
    by_cases hT : s.cpu.SR &&& 0x40 = 0
    · by_cases hP : s2.cpu.PC &&& 0xFF00 =
        jsAnd16 ((s2.cpu.PC : Int) + ((((off ^^^ 0x80 : Nat)) : Int) - 0x80)) &&& 0xFF00
      · simp only [if_pos hT, if_neg (not_not_intro hP)]
        rw [hcy2]
        exact ⟨_, rfl⟩
      · simp only [if_pos hT, if_pos hP]
        rw [hcy2]
        exact ⟨_, rfl⟩
    · simp only [if_neg hT]
      rw [hcy2]
      exact ⟨_, rfl⟩
  · rw [show populateInstructions 0x30 = some Instr.i30 from rfl]
    rw [show branchTaken 0x30 s.cpu.SR = ((s.cpu.SR &&& 0x80) != 0) from rfl]
    simp only [Instr.i30]
    rw [h2]
    simp only [CPU.getFlag, CpuFlags.Zero, CpuFlags.Carry, CpuFlags.Overflow,
      CpuFlags.Negative, hSR2, bne_iff_ne, beq_iff_eq, ne_eq, Decidable.not_not]
    by_cases hT : s.cpu.SR &&& 0x80 = 0
    · simp only [if_neg (not_not_intro hT)]
      rw [hcy2]
      exact ⟨_, rfl⟩
    · by_cases hP : s2.cpu.PC &&& 0xFF00 =
        jsAnd16 ((s2.cpu.PC : Int) + ((((off ^^^ 0x80 : Nat)) : Int) - 0x80)) &&& 0xFF00
      · simp only [if_pos hT, if_neg (not_not_intro hP)]
        rw [hcy2]
        exact ⟨_, rfl⟩
      · simp only [if_pos hT, if_pos hP]
        rw [hcy2]
        exact ⟨_, rfl⟩
  · rw [show populateInstructions 0x10 = some Instr.i10 from rfl]
    rw [show branchTaken 0x10 s.cpu.SR = ((s.cpu.SR &&& 0x80) == 0) from rfl]
    simp only [Instr.i10]
    rw [h2]
    simp only [CPU.getFlag, CpuFlags.Zero, CpuFlags.Carry, CpuFlags.Overflow,
      CpuFlags.Negative, hSR2, bne_iff_ne, beq_iff_eq, ne_eq, Decidable.not_not]
    by_cases hT : s.cpu.SR &&& 0x80 = 0
    · by_cases hP : s2.cpu.PC &&& 0xFF00 =
        jsAnd16 ((s2.cpu.PC : Int) + ((((off ^^^ 0x80 : Nat)) : Int) - 0x80)) &&& 0xFF00
      · simp only [if_pos hT, if_neg (not_not_intro hP)]
        rw [hcy2]
        exact ⟨_, rfl⟩
      · simp only [if_pos hT, if_pos hP]
        rw [hcy2]
        exact ⟨_, rfl⟩
    · simp only [if_neg hT]
      rw [hcy2]
      exact ⟨_, rfl⟩

/-- Witness for C9: a taken BEQ at 0x02FD with offset +0x10 crosses a page
boundary (target 0x030F vs fall-through 0x02FF) and costs 2 + 1 + 1 = 4
cycles. -/
theorem branch_cycle_cost_witness : ∃ sF, CPU.step nesBeq = .ok (4, sF) := by
  obtain ⟨sF, hsF⟩ := branch_cycle_cost nesBeq nesBeqS1 nesBeqS2 0xF0 0x10
    (Or.inl rfl) rfl (Or.inl rfl) rfl rfl
  exact ⟨sF, by rw [hsF]; rfl⟩

/-! ## C10: the unimplemented-opcode error contract of CPU.step -/

/-- C10, confirmed.  From any state with no pending interrupt and an in-range
program counter whose opcode fetch succeeds, `CPU.step` fails with an
unimplemented-opcode error if and only if the fetched opcode is absent from
the instruction table; the error then carries exactly the fetched opcode byte
and the PC at which that byte was fetched.  (The source reports
`this.PC - 1` after the fetch incremented `PC` modulo 0x10000; the wrap case
`PC = 0xFFFF` cannot reach the error, since a successful read at 0xFFFF
always yields opcode 0x00 = BRK, which the table implements.) -/
theorem step_unimplemented_contract (s s1 : NES) (op : Nat)
    (hpc : s.cpu.PC ≤ 0xFFFF)
    (hn : s.cpu.pendingNMI = false)
    (hi : s.cpu.pendingIRQ = false ∨ CPU.getFlag s.cpu CpuFlags.InterruptDisable = true)
    (h1 : CPU.fetchByte s = .ok (op, s1)) :
    (populateInstructions op = none →
      CPU.step s = .error (.unimplementedOpcode op (s.cpu.PC : Int))) ∧
    (∀ o pc, CPU.step s = .error (.unimplementedOpcode o pc) →
      o = op ∧ pc = (s.cpu.PC : Int) ∧ populateInstructions o = none) := by
  have hcpu1 := CPU.fetchByte_ok h1
  have hne : populateInstructions op = none → s.cpu.PC ≠ 0xFFFF := by
    intro hnone heq
    unfold CPU.fetchByte at h1
    rw [heq] at h1
    rcases hr : Memory.read s 0xFFFF with e | vs
    · rw [hr] at h1; cases h1
    · rcases vs with ⟨v, s'⟩
      rw [hr] at h1
      simp only [Except.ok.injEq, Prod.mk.injEq] at h1
      have hv0 := Memory.read_FFFF hr
      rw [← h1.1, hv0] at hnone
      rw [show populateInstructions 0 = some Instr.i00 from rfl] at hnone
      exact Option.noConfusion hnone
  have hpc1 : populateInstructions op = none →
      (s1.cpu.PC : Int) - 1 = (s.cpu.PC : Int) := by
    intro hnone
    have hlt : s.cpu.PC < 0xFFFF := lt_of_le_of_ne hpc (hne hnone)
    rw [hcpu1]
    dsimp only
    rw [show (0xFFFF : Nat) = 2 ^ 16 - 1 from rfl, Nat.and_pow_two_sub_one_eq_mod,
      Nat.mod_eq_of_lt (by omega)]
    push_cast
    ring
  have hstepEq : CPU.step s =
      (match populateInstructions op with
       | none => .error (.unimplementedOpcode op ((s1.cpu.PC : Int) - 1))
       | some instruction =>
         match instruction.execute { s1 with cpu := { s1.cpu with cycles := 0 } } with
         | .error e => .error (.mem e)
         | .ok t =>
           .ok (t.cpu.cycles + instruction.cycles,
             { t with cpu := { t.cpu with cycles := t.cpu.cycles + instruction.cycles } })) := by
    unfold CPU.step
    rw [handleInterrupts_idle s hn hi]
    dsimp only
    rw [if_neg (Nat.lt_irrefl 0), h1]
  constructor
  · intro hnone
    rw [hstepEq, hnone]
    dsimp only
    rw [hpc1 hnone]
  · intro o pc herr
    rw [hstepEq] at herr
    rcases hcase : populateInstructions op with _ | instr
    · rw [hcase] at herr
      dsimp only at herr
      simp only [Except.error.injEq, EmuError.unimplementedOpcode.injEq] at herr
      refine ⟨herr.1.symm, ?_, ?_⟩
      · rw [← herr.2, hpc1 hcase]
      · rw [← herr.1]
        exact hcase
    · rw [hcase] at herr
      dsimp only at herr
      rcases hex : instr.execute { s1 with cpu := { s1.cpu with cycles := 0 } } with e | t
      · rw [hex] at herr
        dsimp only at herr
        simp only [Except.error.injEq] at herr
        exact EmuError.noConfusion herr
      · rw [hex] at herr
        exact Except.noConfusion herr

/-- Witness for C10: the opcode byte 0x02 at PC = 0x0200 is not in the
instruction table, and `step` reports exactly that byte and that PC. -/
theorem step_unimplemented_contract_witness :
    CPU.step nesBadOpcode = .error (.unimplementedOpcode 0x02 0x0200) :=
  (step_unimplemented_contract nesBadOpcode nesBadOpcodeS1 0x02
    (by decide) rfl (Or.inl rfl) rfl).1 rfl

end NesEmu
